import Mathlib

/-!
# XfsSpSample: the session, lock and dispatch engine of the XFS service provider

A shallow embedding of `src/lib/xfssp.cpp` and `src/lib/xfssp.h`.  The global
variables of the service provider become the fields of `State`; every `WFP*`
entry point becomes a function from the state before the call to the result
code and the state after it.  A thread started with `CreateThread` is recorded
in `State.threads` and its body is a function of its own (`WFPLockProcess`, ...)
that can be run at any later point; every `SendMessage` is appended to
`State.sent`.
-/

set_option linter.unusedVariables false

namespace XfsSp

/-! ## Handles and result codes -/

/-- Service handle (`HSERVICE`); `NULL` is `0`. -/
abbrev HSERVICE := Nat

/-- Window handle (`HWND`); `NULL` is `0`. -/
abbrev HWND := Nat

/-- Request identifier (`REQUESTID`); `NULL` is `0`. -/
abbrev REQUESTID := Nat

/-- Unsigned 32 bit word (`DWORD`). -/
abbrev DWORD := Nat

/-- The null handle. -/
abbrev NULL : Nat := 0

/-- Modelled from the spec: the `WFS_*_COMPLETE` and `WFS_*_EVENT` window
message codes are macros of the XFS SDK header `xfsapi.h`, which is not part of
the sources; they are kept as distinct symbolic codes. -/
inductive WindowMessage where
  | WFS_OPEN_COMPLETE
  | WFS_CLOSE_COMPLETE
  | WFS_LOCK_COMPLETE
  | WFS_UNLOCK_COMPLETE
  | WFS_REGISTER_COMPLETE
  | WFS_DEREGISTER_COMPLETE
  | WFS_GETINFO_COMPLETE
  | WFS_EXECUTE_COMPLETE
  | WFS_EXECUTE_EVENT
  | WFS_SERVICE_EVENT
  | WFS_USER_EVENT
  | WFS_SYSTEM_EVENT
  deriving DecidableEq, Repr

/-- Modelled from the spec: the `WFS_SUCCESS` / `WFS_ERR_*` result codes are
macros of the XFS SDK header `xfsapi.h`, which is not part of the sources; they
are kept as distinct symbolic codes.  `ofMessage` is the value of a window
message macro stored in an `HRESULT` field (as `WFPSendEvent` does). -/
inductive HRESULT where
  | WFS_SUCCESS
  | WFS_ERR_CANCELED
  | WFS_ERR_DEV_NOT_READY
  | WFS_ERR_INTERNAL_ERROR
  | WFS_ERR_INVALID_HSERVICE
  | WFS_ERR_INVALID_HWND
  | WFS_ERR_INVALID_HWNDREG
  | WFS_ERR_INVALID_POINTER
  | WFS_ERR_LOCKED
  | WFS_ERR_SPI_VER_TOO_HIGH
  | WFS_ERR_SPI_VER_TOO_LOW
  | WFS_ERR_SRVC_VER_TOO_HIGH
  | WFS_ERR_SRVC_VER_TOO_LOW
  | WFS_ERR_UNSUPP_COMMAND
  | WFS_ERR_USER_ERROR
  | ofMessage (m : WindowMessage)
  deriving DecidableEq, Repr

open HRESULT WindowMessage

/-- The three values of `g_lock_state` (`#define UNLOCKED 0`, `LOCK_PENDING 1`,
`LOCKED 2` in `xfssp.h`); the variable is never assigned anything else. -/
inductive LockState where
  | UNLOCKED
  | LOCK_PENDING
  | LOCKED
  deriving DecidableEq, Repr

open LockState

/-! ## Records -/

/-- Status descriptor `WFSALMSTATUS` filled in by `ProcessGetInfoStatus`. -/
structure WFSALMSTATUS where
  fwDevice : Nat
  bAlarmSet : Bool
  wAntiFraudModule : Nat
  lpszExtra : Nat
  deriving DecidableEq, Repr

/-- Capability descriptor `WFSALMCAPS` filled in by `ProcessGetInfoCapabilities`. -/
structure WFSALMCAPS where
  wClass : Nat
  bProgrammaticallyDeactivate : Bool
  lpszExtra : Nat
  bAntiFraudModule : Bool
  lpdwSynchronizableCommands : Nat
  deriving DecidableEq, Repr

/-- Contents of the `lpBuffer` field (`LPVOID`): either a raw pointer-sized value
(`NULL`, or a window handle stored there by a cast), or a block obtained from
`WFMAllocateMore` at address `addr`. -/
inductive LPVOID where
  | raw (v : Nat)
  | almStatus (addr : Nat) (s : WFSALMSTATUS)
  | almCaps (addr : Nat) (c : WFSALMCAPS)
  | word (addr : Nat) (w : Nat)
  deriving DecidableEq, Repr

/-- The cast `(HWND)(lpBuffer)`: the pointer value itself. -/
def LPVOID.toHWND : LPVOID → HWND
  | .raw v => v
  | .almStatus addr _ => addr
  | .almCaps addr _ => addr
  | .word addr _ => addr

/-- Result record `WFSRESULT`.  `addr` is the address of the record (what an
`LPWFSRESULT` holds); `u` is the union of `dwCommandCode` and `dwEventID`. -/
structure WFSRESULT where
  addr : Nat
  RequestID : REQUESTID
  hService : HSERVICE
  hResult : HRESULT
  u : DWORD
  lpBuffer : LPVOID
  deriving DecidableEq, Repr

/-- Subscription entry `WFS_EVENTS`. -/
structure WFS_EVENTS where
  dwEvent : DWORD
  hService : HSERVICE
  deriving DecidableEq, Repr

/-- Queue entry `WFS_MSG`. -/
structure WFS_MSG where
  hWnd : HWND
  lpWFSResult : WFSRESULT
  lpDataReceived : Nat
  bCancelled : Bool
  deriving DecidableEq, Repr

/-- Version record `WFSVERSION`. -/
structure WFSVERSION where
  wVersion : Nat
  wLowVersion : Nat
  wHighVersion : Nat
  szDescription : String
  szSystemStatus : String
  deriving DecidableEq, Repr

/-- A thread started by `CreateThread`: its entry point and its parameter. -/
inductive Thread where
  | WFPOpenProcess (lpParam : WFSRESULT)
  | WFPCloseProcess (lpParam : WFSRESULT)
  | WFPLockProcess (lpParam : WFSRESULT)
  | WFPUnLockProcess (lpParam : WFSRESULT)
  | WFPRegisterProcess (lpParam : WFSRESULT)
  | WFPDeRegisterProcess (lpParam : WFSRESULT)
  | WFPGetInfoProcess (lpParam : WFSRESULT)
  | WFPExecuteThread
  deriving DecidableEq, Repr

/-- One call `SendMessage(hWnd, Msg, 0, lParam)`. -/
structure Message where
  hWnd : HWND
  Msg : WindowMessage
  lParam : WFSRESULT
  deriving DecidableEq, Repr

/-! ## `std::map` with integer keys -/

/-- Lookup, `std::map::find`: the mapped value, or `none` for `end()`. -/
def mapFind {V : Type} : List (Nat × V) → Nat → Option V
  | [], _ => none
  | (k, v) :: m, key => if k = key then some v else mapFind m key

/-- Assignment `m[key] = v`: replaces the value of an existing key, otherwise
inserts the pair at its place in key order. -/
def mapAssign {V : Type} : List (Nat × V) → Nat → V → List (Nat × V)
  | [], key, v => [(key, v)]
  | (k, w) :: m, key, v =>
    if key < k then (key, v) :: (k, w) :: m
    else if key = k then (key, v) :: m
    else (k, w) :: mapAssign m key v

/-- Removal `std::map::erase(key)`. -/
def mapErase {V : Type} : List (Nat × V) → Nat → List (Nat × V)
  | [], _ => []
  | (k, v) :: m, key => if k = key then mapErase m key else (k, v) :: mapErase m key

/-! ## Global state -/

/-- The global variables of `xfssp.h`, the threads created so far and not yet
run (`threads`), and the log of window messages sent (`sent`). -/
structure State where
  g_hProvider : Nat
  g_h_services : List (HSERVICE × Bool)
  g_wfs_event : List (HWND × WFS_EVENTS)
  g_wfs_msg_queue : List WFS_MSG
  hExecuteThread : Bool
  g_lock_state : LockState
  g_lock_hservice : HSERVICE
  threads : List Thread
  sent : List Message
  deriving DecidableEq, Repr

/-- The state after the library is loaded (`DllMain`, static initialisers). -/
def initState : State where
  g_hProvider := NULL
  g_h_services := []
  g_wfs_event := []
  g_wfs_msg_queue := []
  hExecuteThread := false
  g_lock_state := UNLOCKED
  g_lock_hservice := NULL
  threads := []
  sent := []

/-- The guard `hService == NULL || g_h_services.find(hService) == g_h_services.end()`
that opens every session-bound entry point. -/
def invalidHService (st : State) (hService : HSERVICE) : Bool :=
  hService == NULL || (mapFind st.g_h_services hService).isNone

/-- A session is open when the guard `invalidHService` lets it through. -/
def isOpen (st : State) (hService : HSERVICE) : Bool :=
  !invalidHService st hService

/-- The effect of `CreateThread(NULL, 0, entry, param, 0, &id)`. -/
def createThread (st : State) (t : Thread) : State :=
  { st with threads := st.threads ++ [t] }

/-- The effect of `SendMessage(hWnd, Msg, 0, lParam)`. -/
def sendMessage (st : State) (hWnd : HWND) (Msg : WindowMessage) (lParam : WFSRESULT) : State :=
  { st with sent := st.sent ++ [⟨hWnd, Msg, lParam⟩] }

/-- Zero-filled record, the effect of the flag `WFS_MEM_ZEROINIT`.  The outcome
of `WFMAllocateBuffer(sizeof(WFSRESULT), flags, &lpWFSResult)` is an input
(`alloc`) of every entry point that allocates: `none` when the allocation fails,
otherwise the fresh record with its address and its initial contents. -/
def zeroInit (r : WFSRESULT) : WFSRESULT where
  addr := r.addr
  RequestID := 0
  hService := 0
  hResult := WFS_SUCCESS
  u := 0
  lpBuffer := .raw 0

/-! ## Constants of the XFS headers -/

/-- Modelled from the spec: the event class masks are macros of `xfsapi.h`,
which is not part of the sources; the four classes are four distinct bits. -/
def SERVICE_EVENTS : DWORD := 1

/-- Modelled from the spec: see `SERVICE_EVENTS`. -/
def USER_EVENTS : DWORD := 2

/-- Modelled from the spec: see `SERVICE_EVENTS`. -/
def SYSTEM_EVENTS : DWORD := 4

/-- Modelled from the spec: see `SERVICE_EVENTS`. -/
def EXECUTE_EVENTS : DWORD := 8

/-- Modelled from the spec: the alarm command codes are macros of `xfsalm.h`,
which is not part of the sources (`ALM_SERVICE_OFFSET + 1 .. + 4`). -/
def WFS_CMD_ALM_SET_ALARM : DWORD := 701

/-- Modelled from the spec: see `WFS_CMD_ALM_SET_ALARM`. -/
def WFS_CMD_ALM_RESET_ALARM : DWORD := 702

/-- Modelled from the spec: see `WFS_CMD_ALM_SET_ALARM`. -/
def WFS_CMD_ALM_RESET : DWORD := 703

/-- Modelled from the spec: see `WFS_CMD_ALM_SET_ALARM`. -/
def WFS_CMD_ALM_SYNCHRONIZE_COMMAND : DWORD := 704

/-- Low 16 bits of a `DWORD`. -/
def LOWORD (d : DWORD) : Nat := d % 65536

/-- Bits 16..31 of a `DWORD`. -/
def HIWORD (d : DWORD) : Nat := (d / 65536) % 65536

/-- Bitwise complement `~x` of a `DWORD`. -/
def dwordNot (x : DWORD) : DWORD := 0xFFFFFFFF ^^^ (x % 4294967296)

/-! ## Open and version negotiation -/

/-- The record `ProcessVersions` writes through a non-null version pointer:
`memset` to zero, the three version words set to zero, the description copied. -/
def versionRecord : WFSVERSION where
  wVersion := 0x0000
  wLowVersion := 0x0000
  wHighVersion := 0x0000
  szDescription := "XFSSP 0.00-3.30"
  szSystemStatus := ""

/-- `ProcessVersions`: a version pointer is `none` when it is `NULL`; the result
is the result code and the two records after the call. -/
def ProcessVersions (dwSPIVersionsRequired dwSrvcVersionsRequired : DWORD)
    (lpSPIVersion lpSrvcVersion : Option WFSVERSION) :
    HRESULT × Option WFSVERSION × Option WFSVERSION :=
  let lpSPIVersion := lpSPIVersion.map (fun _ => versionRecord)
  let lpSrvcVersion := lpSrvcVersion.map (fun _ => versionRecord)
  let wSpi_HV := LOWORD dwSPIVersionsRequired
  let wSpi_LV := HIWORD dwSPIVersionsRequired
  let wSrv_HV := LOWORD dwSrvcVersionsRequired
  let wSrv_LV := HIWORD dwSrvcVersionsRequired
  let hr :=
    if wSpi_HV > 0xff03 then WFS_ERR_SPI_VER_TOO_HIGH
    else if wSrv_HV > 0xff03 then WFS_ERR_SRVC_VER_TOO_HIGH
    else if wSpi_LV < 0x0001 then WFS_ERR_SPI_VER_TOO_LOW
    else if wSrv_LV < 0x0001 then WFS_ERR_SRVC_VER_TOO_LOW
    else WFS_SUCCESS
  (hr, lpSPIVersion, lpSrvcVersion)

/-- `WFPOpen`.  `invalidWindow` is the outcome of
`!GetWindowInfo(hWnd, ..) && GetLastError() == ERROR_INVALID_HANDLE`; the
parameters the body never reads (`lpszLogicalName`, `hApp`, `lpszAppID`,
`dwTraceLevel`, `dwTimeOut`) are left out.  The result is the result code, the
state after the call and the two version records. -/
def WFPOpen (st : State) (hService : HSERVICE) (hWnd : HWND) (invalidWindow : Bool)
    (reqId : REQUESTID) (hProvider : Nat)
    (dwSPIVersionsRequired : DWORD) (lpSPIVersion : Option WFSVERSION)
    (dwSrvcVersionsRequired : DWORD) (lpSrvcVersion : Option WFSVERSION)
    (alloc : Option WFSRESULT) :
    HRESULT × State × Option WFSVERSION × Option WFSVERSION :=
  if hWnd == NULL || invalidWindow then
    (WFS_ERR_INVALID_HWND, st, lpSPIVersion, lpSrvcVersion)
  else if lpSPIVersion.isNone || lpSrvcVersion.isNone then
    (WFS_ERR_INVALID_POINTER, st, lpSPIVersion, lpSrvcVersion)
  else
    let versions :=
      (ProcessVersions dwSPIVersionsRequired dwSrvcVersionsRequired lpSPIVersion lpSrvcVersion).2
    let st1 : State :=
      { st with g_hProvider := hProvider
                g_h_services := mapAssign st.g_h_services hService true }
    match alloc with
    | none => (WFS_ERR_INTERNAL_ERROR, st1, versions)
    | some buf =>
      let lpWFSResult : WFSRESULT :=
        { buf with RequestID := reqId, hService := hService,
                   lpBuffer := .raw hWnd, hResult := WFS_SUCCESS }
      (WFS_SUCCESS, createThread st1 (.WFPOpenProcess lpWFSResult), versions)

/-! ## Close -/

/-- `WFPClose`. -/
def WFPClose (st : State) (hService : HSERVICE) (hWnd : HWND) (reqId : REQUESTID)
    (alloc : Option WFSRESULT) : HRESULT × State :=
  if invalidHService st hService then (WFS_ERR_INVALID_HSERVICE, st)
  else
    let st1 : State := { st with g_lock_state := UNLOCKED, g_lock_hservice := NULL }
    let st2 : State := { st1 with g_h_services := mapErase st1.g_h_services hService }
    match alloc with
    | none => (WFS_ERR_INTERNAL_ERROR, st2)
    | some buf =>
      let lpWFSResult : WFSRESULT :=
        { buf with RequestID := reqId, hService := hService,
                   lpBuffer := .raw hWnd, hResult := WFS_SUCCESS }
      (WFS_SUCCESS, createThread st2 (.WFPCloseProcess lpWFSResult))

/-- `WFPCloseProcess`, the body of the thread started by an accepted `WFPClose`:
`CloseDevice()` of the mock device does nothing and returns 0; the message goes
to `(HWND)(lpWfsResult)`, the address of the record. -/
def WFPCloseProcess (st : State) (lpParam : WFSRESULT) : State :=
  let hWindowReturn : HWND := lpParam.addr
  sendMessage st hWindowReturn WFS_CLOSE_COMPLETE lpParam

/-! ## Lock and unlock -/

/-- `WFPLockProcess`, the body of the thread started by an accepted `WFPLock`.
The message goes to `(HWND)(lpWfsResult)`, the address of the record. -/
def WFPLockProcess (st : State) (lpParam : WFSRESULT) : State :=
  let hWindowReturn : HWND := lpParam.addr
  let st1 : State := { st with g_lock_state := LOCKED, g_lock_hservice := lpParam.hService }
  sendMessage st1 hWindowReturn WFS_LOCK_COMPLETE lpParam

/-- `WFPLock`. -/
def WFPLock (st : State) (hService : HSERVICE) (dwTimeOut : DWORD) (hWnd : HWND)
    (reqId : REQUESTID) (alloc : Option WFSRESULT) : HRESULT × State :=
  if invalidHService st hService then (WFS_ERR_INVALID_HSERVICE, st)
  else if st.g_lock_state == LOCKED || st.g_lock_state == LOCK_PENDING then
    (WFS_ERR_LOCKED, st)
  else
    let st1 : State := { st with g_lock_state := LOCK_PENDING }
    match alloc with
    | none => (WFS_ERR_INTERNAL_ERROR, st1)
    | some buf =>
      let lpWFSResult : WFSRESULT :=
        { buf with RequestID := reqId, hService := hService,
                   lpBuffer := .raw hWnd, hResult := WFS_SUCCESS }
      (WFS_SUCCESS, createThread st1 (.WFPLockProcess lpWFSResult))

/-- `WFPUnLockProcess`, the body of the thread started by an accepted
`WFPUnlock`.  The message goes to `(HWND)(lpWfsResult)`. -/
def WFPUnLockProcess (st : State) (lpParam : WFSRESULT) : State :=
  let hWindowReturn : HWND := lpParam.addr
  let st1 : State := { st with g_lock_state := UNLOCKED, g_lock_hservice := NULL }
  sendMessage st1 hWindowReturn WFS_UNLOCK_COMPLETE lpParam

/-- `WFPUnlock`. -/
def WFPUnlock (st : State) (hService : HSERVICE) (hWnd : HWND) (reqId : REQUESTID)
    (alloc : Option WFSRESULT) : HRESULT × State :=
  if invalidHService st hService then (WFS_ERR_INVALID_HSERVICE, st)
  else if st.g_lock_state == UNLOCKED then (WFS_ERR_LOCKED, st)
  else
    match alloc with
    | none => (WFS_ERR_INTERNAL_ERROR, st)
    | some buf =>
      let lpWFSResult : WFSRESULT :=
        { buf with RequestID := reqId, hService := hService,
                   lpBuffer := .raw hWnd, hResult := WFS_SUCCESS }
      (WFS_SUCCESS, createThread st (.WFPUnLockProcess lpWFSResult))

/-! ## Event registration -/

/-- The class mask test of `WFPRegister`: none of the four class bits is set. -/
def noEventClass (dwEventClass : DWORD) : Bool :=
  (dwEventClass &&& SERVICE_EVENTS) != SERVICE_EVENTS
    && (dwEventClass &&& USER_EVENTS) != USER_EVENTS
    && (dwEventClass &&& SYSTEM_EVENTS) != SYSTEM_EVENTS
    && (dwEventClass &&& EXECUTE_EVENTS) != EXECUTE_EVENTS

/-- `WFPRegister`. -/
def WFPRegister (st : State) (hService : HSERVICE) (dwEventClass : DWORD) (hWndReg : HWND)
    (hWnd : HWND) (reqId : REQUESTID) (alloc : Option WFSRESULT) : HRESULT × State :=
  if invalidHService st hService then (WFS_ERR_INVALID_HSERVICE, st)
  else if noEventClass dwEventClass then (WFS_ERR_USER_ERROR, st)
  else
    let events :=
      match mapFind st.g_wfs_event hWndReg with
      | some e => mapAssign st.g_wfs_event hWndReg { e with dwEvent := e.dwEvent ||| dwEventClass }
      | none => mapAssign st.g_wfs_event hWndReg { hService := hService, dwEvent := dwEventClass }
    let st1 : State := { st with g_wfs_event := events }
    match alloc with
    | none => (WFS_ERR_INTERNAL_ERROR, st1)
    | some buf =>
      let lpWFSResult : WFSRESULT :=
        { buf with RequestID := reqId, hService := hService,
                   lpBuffer := .raw hWndReg, u := dwEventClass }
      (WFS_SUCCESS, createThread st1 (.WFPRegisterProcess lpWFSResult))

/-- The table update of `WFPDeregister`: `none` stands for the early return
`WFS_ERR_INVALID_HWNDREG`. -/
def deregisterEvents (events : List (HWND × WFS_EVENTS)) (dwEventClass : DWORD)
    (hWndReg : HWND) : Option (List (HWND × WFS_EVENTS)) :=
  if hWndReg == NULL then some []
  else
    match mapFind events hWndReg with
    | some e =>
      let e1 : WFS_EVENTS := { e with dwEvent := e.dwEvent &&& dwordNot dwEventClass }
      let events1 := mapAssign events hWndReg e1
      if e1.dwEvent == 0 then some (mapErase events1 hWndReg) else some events1
    | none => none

/-- `WFPDeregister`. -/
def WFPDeregister (st : State) (hService : HSERVICE) (dwEventClass : DWORD) (hWndReg : HWND)
    (hWnd : HWND) (reqId : REQUESTID) (alloc : Option WFSRESULT) : HRESULT × State :=
  match deregisterEvents st.g_wfs_event dwEventClass hWndReg with
  | none => (WFS_ERR_INVALID_HWNDREG, st)
  | some events =>
    let st1 : State := { st with g_wfs_event := events }
    match alloc with
    | none => (WFS_ERR_INTERNAL_ERROR, st1)
    | some buf =>
      let lpWFSResult : WFSRESULT :=
        { buf with RequestID := reqId, hService := hService,
                   lpBuffer := .raw hWnd, u := dwEventClass }
      (WFS_SUCCESS, createThread st1 (.WFPDeRegisterProcess lpWFSResult))

/-! ## Information queries -/

/-- `WFPGetInfo`; the record is allocated with `WFS_MEM_ZEROINIT`.  The
parameters `lpQueryDetails` and `dwTimeOut` are never read. -/
def WFPGetInfo (st : State) (hService : HSERVICE) (dwCategory : DWORD) (hWnd : HWND)
    (reqId : REQUESTID) (alloc : Option WFSRESULT) : HRESULT × State :=
  if invalidHService st hService then (WFS_ERR_INVALID_HSERVICE, st)
  else
    match alloc with
    | none => (WFS_ERR_INTERNAL_ERROR, st)
    | some buf =>
      let lpWFSResult : WFSRESULT :=
        { zeroInit buf with RequestID := reqId, hService := hService,
                            lpBuffer := .raw hWnd, u := dwCategory }
      (WFS_SUCCESS, createThread st (.WFPGetInfoProcess lpWFSResult))

/-! ## Command submission and cancellation -/

/-- `WFPExecute`.  The parameters `lpCmdData` and `dwTimeOut` are never read. -/
def WFPExecute (st : State) (hService : HSERVICE) (dwCommand : DWORD) (hWnd : HWND)
    (reqId : REQUESTID) (alloc : Option WFSRESULT) : HRESULT × State :=
  if invalidHService st hService then (WFS_ERR_INVALID_HSERVICE, st)
  else if st.g_lock_state == LOCKED && st.g_lock_hservice != hService then
    (WFS_ERR_LOCKED, st)
  else if dwCommand == WFS_CMD_ALM_SYNCHRONIZE_COMMAND || dwCommand == WFS_CMD_ALM_SET_ALARM
      || dwCommand == WFS_CMD_ALM_RESET_ALARM then
    (WFS_ERR_UNSUPP_COMMAND, st)
  else
    match alloc with
    | none => (WFS_ERR_INTERNAL_ERROR, st)
    | some buf =>
      let lpWFSResult : WFSRESULT :=
        { buf with RequestID := reqId, hService := hService, u := dwCommand }
      let msgData : WFS_MSG :=
        { lpWFSResult := lpWFSResult, hWnd := hWnd, bCancelled := false, lpDataReceived := NULL }
      let st1 : State :=
        if st.hExecuteThread then st
        else { createThread st .WFPExecuteThread with hExecuteThread := true }
      (WFS_SUCCESS, { st1 with g_wfs_msg_queue := st1.g_wfs_msg_queue ++ [msgData] })

/-- The loop body of `WFPCancelAsyncRequest` on one queue entry. -/
def cancelEntry (hService : HSERVICE) (reqId : REQUESTID) (msg : WFS_MSG) : WFS_MSG :=
  if msg.lpWFSResult.hService == hService then
    if reqId == NULL || msg.lpWFSResult.RequestID == reqId then
      { msg with bCancelled := true }
    else msg
  else msg

/-- `WFPCancelAsyncRequest`. -/
def WFPCancelAsyncRequest (st : State) (hService : HSERVICE) (reqId : REQUESTID) :
    HRESULT × State :=
  if invalidHService st hService then (WFS_ERR_INVALID_HSERVICE, st)
  else
    (WFS_SUCCESS, { st with g_wfs_msg_queue := st.g_wfs_msg_queue.map (cancelEntry hService reqId) })

/-! ## Event fan-out -/

/-- The class test of `WFPSendEvent` on the mask of one listener: one of the
four class bits is set. -/
def anyEventClass (dwEvent : DWORD) : Bool :=
  (dwEvent &&& SERVICE_EVENTS) == SERVICE_EVENTS
    || (dwEvent &&& USER_EVENTS) == USER_EVENTS
    || (dwEvent &&& SYSTEM_EVENTS) == SYSTEM_EVENTS
    || (dwEvent &&& EXECUTE_EVENTS) == EXECUTE_EVENTS

/-- The record `WFPSendEvent` builds for one listener in the zero-filled buffer
`buf`: `hResult = WFS_SERVICE_EVENT`, the session of the subscription entry,
`u.dwEventID = evt`, and `lpBuffer` pointing to the block at address `more`
obtained from `WFMAllocateMore`, into which the low 16 bits of `data` are
written through an `LPWORD`. -/
def eventRecord (buf : WFSRESULT) (more : Nat) (hService : HSERVICE) (evt data : Int) :
    WFSRESULT :=
  { zeroInit buf with hResult := .ofMessage WFS_SERVICE_EVENT, hService := hService,
                      RequestID := NULL, u := (evt % 4294967296).toNat,
                      lpBuffer := .word more (data % 65536).toNat }

/-- The loop of `WFPSendEvent` over the entries of `g_wfs_event` in key order.
`alloc h` is the outcome of `WFMAllocateBuffer` in the iteration for listener `h`
(`none` when it fails) and `allocMore h` the address `WFMAllocateMore` yields
there (`none` when it fails; its result is not tested and the word is then
written through a null pointer, which has no defined outcome: the loop yields
`none`). -/
def sendEventLoop (evt data : Int) (alloc : HWND → Option WFSRESULT)
    (allocMore : HWND → Option Nat) :
    List (HWND × WFS_EVENTS) → State → Option (HRESULT × State)
  | [], st => some (WFS_SUCCESS, st)
  | (h, e) :: rest, st =>
    if anyEventClass e.dwEvent then
      match alloc h with
      | none => some (WFS_ERR_INTERNAL_ERROR, st)
      | some buf =>
        match allocMore h with
        | none => none
        | some more =>
          sendEventLoop evt data alloc allocMore rest
            (sendMessage st h WFS_USER_EVENT (eventRecord buf more e.hService evt data))
    else sendEventLoop evt data alloc allocMore rest st

/-- `WFPSendEvent`; the value `0` it returns at the end is `WFS_SUCCESS`. -/
def WFPSendEvent (st : State) (evt data : Int) (alloc : HWND → Option WFSRESULT)
    (allocMore : HWND → Option Nat) : Option (HRESULT × State) :=
  sendEventLoop evt data alloc allocMore st.g_wfs_event st

/-! ## The worker -/

/-- A call into the device made by the worker. -/
inductive DeviceCall where
  | ResetAlarm
  | ResetDevice
  deriving DecidableEq, Repr

/-- `WFPExecuteResetAlarmCommand`; `rv` is the value `ResetAlarm()` returns. -/
def WFPExecuteResetAlarmCommand (wfs_result : WFSRESULT) (rv : Int) : WFSRESULT :=
  let r1 : WFSRESULT := { wfs_result with hResult := WFS_SUCCESS }
  let r2 : WFSRESULT := if rv != 0 then { r1 with hResult := WFS_ERR_INTERNAL_ERROR } else r1
  { r2 with lpBuffer := .raw NULL }

/-- `WFPExecuteResetDeviceCommand`; `rv` is the value `ResetDevice()` returns. -/
def WFPExecuteResetDeviceCommand (wfs_result : WFSRESULT) (rv : Int) : WFSRESULT :=
  let r1 : WFSRESULT := { wfs_result with hResult := WFS_SUCCESS }
  let r2 : WFSRESULT := if rv != 0 then { r1 with hResult := WFS_ERR_INTERNAL_ERROR } else r1
  { r2 with lpBuffer := .raw NULL }

/-- What the worker does with the entry it has taken from the queue: the result
record it sends and the device calls it makes.  `resetAlarm` and `resetDevice`
are the values the device functions return when called. -/
def executeMessage (msg : WFS_MSG) (resetAlarm resetDevice : Int) :
    WFSRESULT × List DeviceCall :=
  if msg.bCancelled == true then
    ({ msg.lpWFSResult with hResult := WFS_ERR_CANCELED }, [])
  else if msg.lpWFSResult.u == WFS_CMD_ALM_RESET_ALARM then
    (WFPExecuteResetAlarmCommand msg.lpWFSResult resetAlarm, [.ResetAlarm])
  else if msg.lpWFSResult.u == WFS_CMD_ALM_RESET then
    (WFPExecuteResetDeviceCommand msg.lpWFSResult resetDevice, [.ResetDevice])
  else (msg.lpWFSResult, [])

/-- One pass through the body of the `while (TRUE)` loop of `WFPExecuteThread`:
the state after it and the device calls made in it. -/
def WFPExecuteThreadIteration (st : State) (resetAlarm resetDevice : Int) :
    State × List DeviceCall :=
  match st.g_wfs_msg_queue with
  | [] => (st, [])
  | msg :: rest =>
    let hWindowReturn : HWND := msg.hWnd
    let st1 : State := { st with g_wfs_msg_queue := rest }
    let done := executeMessage msg resetAlarm resetDevice
    (sendMessage st1 hWindowReturn WFS_EXECUTE_COMPLETE done.1, done.2)

/-- Return value of `ResetDevice()` of the mock device (`mockdevice.cpp`). -/
def ResetDevice : Int := 0

/-- Return value of `ResetAlarm()` of the mock device (`mockdevice.cpp`). -/
def ResetAlarm : Int := 0

/-! ## Interleavings of submissions, cancellations and worker iterations -/

/-- One step of an interleaving on the command queue: a call of `WFPExecute`, a
call of `WFPCancelAsyncRequest`, or one iteration of the worker (with the values
the device functions return in it). -/
inductive QueueOp where
  | execute (hService : HSERVICE) (dwCommand : DWORD) (hWnd : HWND) (reqId : REQUESTID)
      (alloc : Option WFSRESULT)
  | cancel (hService : HSERVICE) (reqId : REQUESTID)
  | work (resetAlarm resetDevice : Int)
  deriving DecidableEq, Repr

/-- The state after one step. -/
def applyQueueOp (st : State) : QueueOp → State
  | .execute hService dwCommand hWnd reqId alloc =>
    (WFPExecute st hService dwCommand hWnd reqId alloc).2
  | .cancel hService reqId => (WFPCancelAsyncRequest st hService reqId).2
  | .work resetAlarm resetDevice => (WFPExecuteThreadIteration st resetAlarm resetDevice).1

/-- The state after a sequence of steps. -/
def runQueueOps : State → List QueueOp → State
  | st, [] => st
  | st, op :: ops => runQueueOps (applyQueueOp st op) ops

/-- What identifies a request to its caller: notify window, session, request id
and command code. -/
structure Request where
  hWnd : HWND
  hService : HSERVICE
  RequestID : REQUESTID
  dwCommand : DWORD
  deriving DecidableEq, Repr

/-- The request a queue entry stands for. -/
def requestOfEntry (msg : WFS_MSG) : Request :=
  ⟨msg.hWnd, msg.lpWFSResult.hService, msg.lpWFSResult.RequestID, msg.lpWFSResult.u⟩

/-- The request a completion message answers. -/
def requestOfMessage (m : Message) : Request :=
  ⟨m.hWnd, m.lParam.hService, m.lParam.RequestID, m.lParam.u⟩

/-- The `WFS_EXECUTE_COMPLETE` messages sent so far, oldest first. -/
def executeCompletions (st : State) : List Message :=
  st.sent.filter (fun m => m.Msg == WFS_EXECUTE_COMPLETE)

/-- The requests accepted (`WFPExecute` returned `WFS_SUCCESS`) in a sequence of
steps started in `st`, in submission order. -/
def acceptedRequests : State → List QueueOp → List Request
  | _, [] => []
  | st, .execute hService dwCommand hWnd reqId alloc :: ops =>
    if (WFPExecute st hService dwCommand hWnd reqId alloc).1 = WFS_SUCCESS then
      ⟨hWnd, hService, reqId, dwCommand⟩ ::
        acceptedRequests (applyQueueOp st (.execute hService dwCommand hWnd reqId alloc)) ops
    else acceptedRequests (applyQueueOp st (.execute hService dwCommand hWnd reqId alloc)) ops
  | st, op :: ops => acceptedRequests (applyQueueOp st op) ops

/-- The queue as the specification describes it: the pending requests in
submission order, each with the mark "cancelled while queued", and the answered
requests in completion order, each with the mark it had when it was taken. -/
structure SpecQueue where
  pending : List (Request × Bool)
  completed : List (Request × Bool)
  deriving DecidableEq, Repr

/-- The specification of `Cancel(sessionId, requestId | null)`: a pending request
matches when it belongs to the session and, for a non-null id, has that id. -/
def cancelMatches (hService : HSERVICE) (reqId : REQUESTID) (r : Request) : Bool :=
  r.hService == hService && (reqId == NULL || r.RequestID == reqId)

/-- One step on the specification queue.  Whether a call is accepted is read off
the result code of the call in the state `st` of the code: an accepted
submission is appended unmarked, an accepted cancellation marks the matching
pending requests, a worker iteration answers the head. -/
def specQueueStep (q : SpecQueue) (st : State) : QueueOp → SpecQueue
  | .execute hService dwCommand hWnd reqId alloc =>
    if (WFPExecute st hService dwCommand hWnd reqId alloc).1 = WFS_SUCCESS then
      { q with pending := q.pending ++ [(⟨hWnd, hService, reqId, dwCommand⟩, false)] }
    else q
  | .cancel hService reqId =>
    if (WFPCancelAsyncRequest st hService reqId).1 = WFS_SUCCESS then
      { q with
          pending := q.pending.map (fun p => (p.1, p.2 || cancelMatches hService reqId p.1)) }
    else q
  | .work _ _ =>
    match q.pending with
    | [] => q
    | p :: rest => { pending := rest, completed := q.completed ++ [p] }

/-- The specification queue after a sequence of steps running next to the code. -/
def specQueueRun : SpecQueue → State → List QueueOp → SpecQueue
  | q, _, [] => q
  | q, st, op :: ops => specQueueRun (specQueueStep q st op) (applyQueueOp st op) ops

/-- The specification queue a state of the code stands for: the queue entries
with their `bCancelled` flags, and the completions sent with the mark "carries
`WFS_ERR_CANCELED`". -/
def specQueueOf (st : State) : SpecQueue where
  pending := st.g_wfs_msg_queue.map (fun msg => (requestOfEntry msg, msg.bCancelled))
  completed := (executeCompletions st).map
    (fun m => (requestOfMessage m, decide (m.lParam.hResult = WFS_ERR_CANCELED)))

/-- A step that submits no command other than `WFS_CMD_ALM_RESET`. -/
def submitsOnlyReset : QueueOp → Bool
  | .execute _ dwCommand _ _ _ => dwCommand == WFS_CMD_ALM_RESET
  | _ => true

/-! ## Completion threads of open, register, deregister and get-info -/

/-- Modelled from the spec: the information categories are macros of `xfsalm.h`,
which is not part of the sources (`ALM_SERVICE_OFFSET + 1` and `+ 2`). -/
def WFS_INF_ALM_STATUS : DWORD := 701

/-- Modelled from the spec: see `WFS_INF_ALM_STATUS`. -/
def WFS_INF_ALM_CAPABILITIES : DWORD := 702

/-- Modelled from the spec: device state "online", a macro of `xfsalm.h`. -/
def WFS_ALM_DEVONLINE : Nat := 0

/-- Modelled from the spec: anti-fraud module state "ok", a macro of `xfsalm.h`. -/
def WFS_ALM_AFMOK : Nat := 1

/-- Modelled from the spec: the service class of alarms, a macro of `xfsalm.h`. -/
def WFS_SERVICE_CLASS_ALM : Nat := 7

/-- `WFPOpenProcess`; `openDevice` is the value `OpenDevice(WFPSendEvent)` returns. -/
def WFPOpenProcess (st : State) (lpParam : WFSRESULT) (openDevice : Int) : State :=
  let hWindowReturn : HWND := lpParam.lpBuffer.toHWND
  let r : WFSRESULT :=
    if openDevice != 0 then { lpParam with hResult := WFS_ERR_DEV_NOT_READY } else lpParam
  sendMessage st hWindowReturn WFS_OPEN_COMPLETE r

/-- `WFPRegisterProcess`. -/
def WFPRegisterProcess (st : State) (lpParam : WFSRESULT) : State :=
  let hWindowReturn : HWND := lpParam.lpBuffer.toHWND
  sendMessage st hWindowReturn WFS_REGISTER_COMPLETE lpParam

/-- `WFPDeRegisterProcess`. -/
def WFPDeRegisterProcess (st : State) (lpParam : WFSRESULT) : State :=
  let hWindowReturn : HWND := lpParam.lpBuffer.toHWND
  let r : WFSRESULT := { lpParam with lpBuffer := .raw NULL }
  sendMessage st hWindowReturn WFS_DEREGISTER_COMPLETE r

/-- `ProcessGetInfoStatus`; `allocMore` is the outcome of `WFMAllocateMore`: the
address of the new block, or `none` when it fails (`lpBuffer` is then taken to
stay as it was). -/
def ProcessGetInfoStatus (wfs_result : WFSRESULT) (allocMore : Option Nat) : WFSRESULT :=
  match allocMore with
  | none => { wfs_result with hResult := WFS_ERR_INTERNAL_ERROR }
  | some addr =>
    { wfs_result with
        lpBuffer := .almStatus addr
          { fwDevice := WFS_ALM_DEVONLINE, bAlarmSet := false,
            wAntiFraudModule := WFS_ALM_AFMOK, lpszExtra := NULL } }

/-- `ProcessGetInfoCapabilities`; `allocMore` as in `ProcessGetInfoStatus`. -/
def ProcessGetInfoCapabilities (wfs_result : WFSRESULT) (allocMore : Option Nat) : WFSRESULT :=
  match allocMore with
  | none => { wfs_result with hResult := WFS_ERR_INTERNAL_ERROR }
  | some addr =>
    { wfs_result with
        lpBuffer := .almCaps addr
          { wClass := WFS_SERVICE_CLASS_ALM, bProgrammaticallyDeactivate := true,
            lpszExtra := NULL, bAntiFraudModule := true,
            lpdwSynchronizableCommands := NULL } }

/-- The record `WFPGetInfoProcess` sends. -/
def getInfoResult (lpParam : WFSRESULT) (allocMore : Option Nat) : WFSRESULT :=
  if lpParam.u == WFS_INF_ALM_CAPABILITIES then
    { ProcessGetInfoCapabilities lpParam allocMore with hResult := WFS_SUCCESS }
  else if lpParam.u == WFS_INF_ALM_STATUS then
    { ProcessGetInfoStatus lpParam allocMore with hResult := WFS_SUCCESS }
  else lpParam

/-- `WFPGetInfoProcess`. -/
def WFPGetInfoProcess (st : State) (lpParam : WFSRESULT) (allocMore : Option Nat) : State :=
  let hWindowReturn : HWND := lpParam.lpBuffer.toHWND
  sendMessage st hWindowReturn WFS_GETINFO_COMPLETE (getInfoResult lpParam allocMore)

/-! ## Interleavings of all entry points and threads -/

/-- What the environment supplies to a thread when it runs: the return values
of the device functions and the outcome of `WFMAllocateMore`. -/
structure ThreadEnv where
  openDevice : Int
  resetAlarm : Int
  resetDevice : Int
  allocMore : Option Nat

/-- The body of a created thread.  For the worker `WFPExecuteThread` this is one
pass through its loop. -/
def runThread (st : State) (env : ThreadEnv) : Thread → State
  | .WFPOpenProcess lpParam => WFPOpenProcess st lpParam env.openDevice
  | .WFPCloseProcess lpParam => WFPCloseProcess st lpParam
  | .WFPLockProcess lpParam => WFPLockProcess st lpParam
  | .WFPUnLockProcess lpParam => WFPUnLockProcess st lpParam
  | .WFPRegisterProcess lpParam => WFPRegisterProcess st lpParam
  | .WFPDeRegisterProcess lpParam => WFPDeRegisterProcess st lpParam
  | .WFPGetInfoProcess lpParam => WFPGetInfoProcess st lpParam env.allocMore
  | .WFPExecuteThread => (WFPExecuteThreadIteration st env.resetAlarm env.resetDevice).1

/-- One step of the service provider: a call of an entry point, a device event,
or a step of the created thread number `i`. -/
inductive Op where
  | wfpOpen (hService : HSERVICE) (hWnd : HWND) (invalidWindow : Bool) (reqId : REQUESTID)
      (hProvider : Nat) (dwSPIVersionsRequired : DWORD) (lpSPIVersion : Option WFSVERSION)
      (dwSrvcVersionsRequired : DWORD) (lpSrvcVersion : Option WFSVERSION)
      (alloc : Option WFSRESULT)
  | wfpClose (hService : HSERVICE) (hWnd : HWND) (reqId : REQUESTID) (alloc : Option WFSRESULT)
  | wfpLock (hService : HSERVICE) (dwTimeOut : DWORD) (hWnd : HWND) (reqId : REQUESTID)
      (alloc : Option WFSRESULT)
  | wfpUnlock (hService : HSERVICE) (hWnd : HWND) (reqId : REQUESTID)
      (alloc : Option WFSRESULT)
  | wfpRegister (hService : HSERVICE) (dwEventClass : DWORD) (hWndReg hWnd : HWND)
      (reqId : REQUESTID) (alloc : Option WFSRESULT)
  | wfpDeregister (hService : HSERVICE) (dwEventClass : DWORD) (hWndReg hWnd : HWND)
      (reqId : REQUESTID) (alloc : Option WFSRESULT)
  | wfpGetInfo (hService : HSERVICE) (dwCategory : DWORD) (hWnd : HWND) (reqId : REQUESTID)
      (alloc : Option WFSRESULT)
  | wfpExecute (hService : HSERVICE) (dwCommand : DWORD) (hWnd : HWND) (reqId : REQUESTID)
      (alloc : Option WFSRESULT)
  | wfpCancelAsyncRequest (hService : HSERVICE) (reqId : REQUESTID)
  | wfpSendEvent (evt data : Int) (alloc : HWND → Option WFSRESULT)
      (allocMore : HWND → Option Nat)
  | thread (i : Nat) (env : ThreadEnv)

/-- The state after one step.  A thread that has run to its end leaves
`threads`; the worker stays, its loop never ends.  A step with no effect: a
thread number that does not exist, and a device event that ends in the
undefined write of `sendEventLoop`.  Each entry point and each thread body is
run here as one indivisible step.  The source does not enforce that (the mutex
handles `xfssp.cpp` waits on are `NULL`, see `sectionSchedules`), so a run of
`runOps` is a run of the source, but not every run of the source is one of
`runOps`: statements of two bodies may also interleave. -/
def applyOp (st : State) : Op → State
  | .wfpOpen hService hWnd invalidWindow reqId hProvider spi lpSPI srvc lpSrvc alloc =>
    (WFPOpen st hService hWnd invalidWindow reqId hProvider spi lpSPI srvc lpSrvc alloc).2.1
  | .wfpClose hService hWnd reqId alloc => (WFPClose st hService hWnd reqId alloc).2
  | .wfpLock hService dwTimeOut hWnd reqId alloc =>
    (WFPLock st hService dwTimeOut hWnd reqId alloc).2
  | .wfpUnlock hService hWnd reqId alloc => (WFPUnlock st hService hWnd reqId alloc).2
  | .wfpRegister hService dwEventClass hWndReg hWnd reqId alloc =>
    (WFPRegister st hService dwEventClass hWndReg hWnd reqId alloc).2
  | .wfpDeregister hService dwEventClass hWndReg hWnd reqId alloc =>
    (WFPDeregister st hService dwEventClass hWndReg hWnd reqId alloc).2
  | .wfpGetInfo hService dwCategory hWnd reqId alloc =>
    (WFPGetInfo st hService dwCategory hWnd reqId alloc).2
  | .wfpExecute hService dwCommand hWnd reqId alloc =>
    (WFPExecute st hService dwCommand hWnd reqId alloc).2
  | .wfpCancelAsyncRequest hService reqId => (WFPCancelAsyncRequest st hService reqId).2
  | .wfpSendEvent evt data alloc allocMore =>
    match WFPSendEvent st evt data alloc allocMore with
    | some res => res.2
    | none => st
  | .thread i env =>
    match st.threads.get? i with
    | none => st
    | some .WFPExecuteThread => runThread st env .WFPExecuteThread
    | some t => runThread { st with threads := st.threads.eraseIdx i } env t

/-- The state after a sequence of steps. -/
def runOps : State → List Op → State
  | st, [] => st
  | st, op :: ops => runOps (applyOp st op) ops

/-! ## The mutex handles and the critical sections on the lock -/

/-- The mutex handles.  `xfssp.h` declares `g_lock_mutex` and
`g_wfs_queue_mutex` as `static`, and it is included by `dllmain.cpp` and by
`xfssp.cpp`: each of the two source files has variables of its own. -/
structure MutexHandles where
  dllmain_g_lock_mutex : Nat
  dllmain_g_wfs_queue_mutex : Nat
  xfssp_g_lock_mutex : Nat
  xfssp_g_wfs_queue_mutex : Nat
  deriving DecidableEq, Repr

/-- The handles before `DllMain` runs: static storage starts as `NULL`. -/
def initialHandles : MutexHandles where
  dllmain_g_lock_mutex := NULL
  dllmain_g_wfs_queue_mutex := NULL
  xfssp_g_lock_mutex := NULL
  xfssp_g_wfs_queue_mutex := NULL

/-- `DllMain` for `DLL_PROCESS_ATTACH`: the two handles `CreateMutex` returns
(`lockMutex`, `queueMutex`) are stored in the variables of `dllmain.cpp`.  No
statement of `xfssp.cpp` assigns its own two variables. -/
def DllMain (h : MutexHandles) (lockMutex queueMutex : Nat) : MutexHandles :=
  { h with dllmain_g_lock_mutex := lockMutex, dllmain_g_wfs_queue_mutex := queueMutex }

/-- One statement of a critical section on the lock: `g_lock_state = v;` or
`g_lock_hservice = hService;`. -/
inductive LockStatement where
  | assignState (v : LockState)
  | assignOwner (hService : HSERVICE)
  deriving DecidableEq, Repr

/-- The effect of one statement. -/
def execLockStatement (st : State) : LockStatement → State
  | .assignState v => { st with g_lock_state := v }
  | .assignOwner hService => { st with g_lock_hservice := hService }

/-- The effect of a sequence of statements. -/
def execLockStatements : State → List LockStatement → State
  | st, [] => st
  | st, stmt :: rest => execLockStatements (execLockStatement st stmt) rest

/-- The critical section of `WFPLockProcess` (lines 279-280), in program order. -/
def WFPLockProcess_section (lpParam : WFSRESULT) : List LockStatement :=
  [.assignState LOCKED, .assignOwner lpParam.hService]

/-- The critical section of `WFPClose` (lines 242-243), in program order. -/
def WFPClose_section : List LockStatement :=
  [.assignState UNLOCKED, .assignOwner NULL]

/-- The critical section of `WFPUnLockProcess` (lines 352-353), in program order. -/
def WFPUnLockProcess_section : List LockStatement :=
  [.assignState UNLOCKED, .assignOwner NULL]

/-- What `WFPLockProcess` does after its critical section. -/
def WFPLockProcess_rest (st : State) (lpParam : WFSRESULT) : State :=
  sendMessage st lpParam.addr WFS_LOCK_COMPLETE lpParam

/-- What `WFPClose` does after its critical section (the session guard has
passed before it). -/
def WFPClose_rest (st : State) (hService : HSERVICE) (hWnd : HWND) (reqId : REQUESTID)
    (alloc : Option WFSRESULT) : HRESULT × State :=
  let st2 : State := { st with g_h_services := mapErase st.g_h_services hService }
  match alloc with
  | none => (WFS_ERR_INTERNAL_ERROR, st2)
  | some buf =>
    let lpWFSResult : WFSRESULT :=
      { buf with RequestID := reqId, hService := hService,
                 lpBuffer := .raw hWnd, hResult := WFS_SUCCESS }
    (WFS_SUCCESS, createThread st2 (.WFPCloseProcess lpWFSResult))

/-- Helper of `merges`: the merges of `x :: a` with a second list, given the
merges `mergesTail` of `a` with any list. -/
def mergesCons {α : Type} (x : α) (a : List α) (mergesTail : List α → List (List α)) :
    List α → List (List α)
  | [] => [x :: a]
  | y :: b =>
    (mergesTail (y :: b)).map (fun l => x :: l)
      ++ (mergesCons x a mergesTail b).map (fun l => y :: l)

/-- All ways to merge two sequences of statements into one that keeps the
order of each. -/
def merges {α : Type} : List α → List α → List (List α)
  | [], b => [b]
  | x :: a, b => mergesCons x a (merges a) b

/-- The orders in which two threads can run their critical sections `a` and `b`,
each bracketed by `WaitForSingleObject(mutex, INFINITE)` and
`ReleaseMutex(mutex)`.  With the handle of a mutex one section runs wholly
before the other.  With a `NULL` handle the wait fails at once and excludes
nobody: every merge of the two sections can occur. -/
def sectionSchedules (mutex : Nat) (a b : List LockStatement) : List (List LockStatement) :=
  if mutex = NULL then merges a b else [a ++ b, b ++ a]

/-! ## Concrete states and records -/

/-- A fresh result record at address `4096` with arbitrary initial contents. -/
def sampleBuffer : WFSRESULT where
  addr := 4096
  RequestID := 0
  hService := 0
  hResult := WFS_ERR_INTERNAL_ERROR
  u := 0
  lpBuffer := .raw 0

/-- Sessions `1` and `2` are open, nothing else has happened. -/
def twoSessions : State :=
  { initState with g_h_services := [(1, true), (2, true)] }

/-- Sessions `1` and `2` are open and session `1` holds the lock. -/
def lockedByOne : State :=
  { twoSessions with g_lock_state := LOCKED, g_lock_hservice := 1 }

/-- The record `WFPLock` builds for request `7` of session `1` with notify
window `100` in `sampleBuffer`. -/
def lockRequest : WFSRESULT :=
  { sampleBuffer with RequestID := 7, hService := 1, lpBuffer := .raw 100, hResult := WFS_SUCCESS }

/-- Sessions `1` and `2` are open and `WFPLock` of session `1` has been accepted:
the lock is pending and the thread `WFPLockProcess lockRequest` is waiting to run. -/
def lockAccepted : State :=
  (WFPLock twoSessions 1 0 100 7 (some sampleBuffer)).2

/-- After `lockAccepted`, session `2` has called `WFPClose` before the lock
thread ran. -/
def lockAcceptedThenClosed : State :=
  (WFPClose lockAccepted 2 100 9 (some sampleBuffer)).2

/-- Session `1` has registered listener window `100` for `SERVICE_EVENTS` and
has then been closed: no session is open, the listener is still in the table. -/
def registeredThenClosed : State :=
  (WFPClose (WFPRegister (WFPOpen initState 1 100 false 5 1 0x0001ff03 (some versionRecord)
      0x0001ff03 (some versionRecord) (some sampleBuffer)).2.1
    1 SERVICE_EVENTS 100 100 6 (some sampleBuffer)).2 1 100 9 (some sampleBuffer)).2

/-- The checks of version negotiation in a given priority order: each entry is
the outcome of one check (`true` when it fails) and the error it stands for; the
result is the error of the first entry that fails, `WFS_SUCCESS` when none does. -/
def firstFailing : List (Bool × HRESULT) → HRESULT
  | [] => WFS_SUCCESS
  | (failed, err) :: rest => if failed then err else firstFailing rest

/-- The priority order in the words of the specification: SPI too high, SPI too
low, service too high, service too low. -/
def versionChecksSpecOrder (dwSPIVersionsRequired dwSrvcVersionsRequired : DWORD) :
    List (Bool × HRESULT) :=
  [ (decide (LOWORD dwSPIVersionsRequired > 0xff03), WFS_ERR_SPI_VER_TOO_HIGH),
    (decide (HIWORD dwSPIVersionsRequired < 0x0001), WFS_ERR_SPI_VER_TOO_LOW),
    (decide (LOWORD dwSrvcVersionsRequired > 0xff03), WFS_ERR_SRVC_VER_TOO_HIGH),
    (decide (HIWORD dwSrvcVersionsRequired < 0x0001), WFS_ERR_SRVC_VER_TOO_LOW) ]

/-- The priority order that describes the code: SPI too high, service too high,
SPI too low, service too low. -/
def versionChecksCodeOrder (dwSPIVersionsRequired dwSrvcVersionsRequired : DWORD) :
    List (Bool × HRESULT) :=
  [ (decide (LOWORD dwSPIVersionsRequired > 0xff03), WFS_ERR_SPI_VER_TOO_HIGH),
    (decide (LOWORD dwSrvcVersionsRequired > 0xff03), WFS_ERR_SRVC_VER_TOO_HIGH),
    (decide (HIWORD dwSPIVersionsRequired < 0x0001), WFS_ERR_SPI_VER_TOO_LOW),
    (decide (HIWORD dwSrvcVersionsRequired < 0x0001), WFS_ERR_SRVC_VER_TOO_LOW) ]

/-- Three `WFS_CMD_ALM_RESET` submissions of session 1 with request ids 11, 12
and 13 (notify window 100), a cancellation of request 12 alone, then three
worker iterations on the mock device. -/
def threeSubmitsCancelSecond : List QueueOp :=
  [ .execute 1 WFS_CMD_ALM_RESET 100 11 (some sampleBuffer),
    .execute 1 WFS_CMD_ALM_RESET 100 12 (some sampleBuffer),
    .execute 1 WFS_CMD_ALM_RESET 100 13 (some sampleBuffer),
    .cancel 1 12,
    .work ResetAlarm ResetDevice, .work ResetAlarm ResetDevice, .work ResetAlarm ResetDevice ]

/-- A fresh result record whose `hResult` field happens to hold the bit pattern
of `WFS_ERR_CANCELED` (the record is allocated without `WFS_MEM_ZEROINIT`). -/
def staleBuffer : WFSRESULT :=
  { sampleBuffer with hResult := WFS_ERR_CANCELED }

/-- One submission of the command code 705, which no handler of the worker
knows, in `staleBuffer`, then one worker iteration; nothing is cancelled. -/
def submitUnhandledCommand : List QueueOp :=
  [ .execute 1 705 100 11 (some staleBuffer), .work ResetAlarm ResetDevice ]

/-- The record `WFPLock`, `WFPUnlock` and `WFPClose` hand to their thread: the
fresh buffer `buf` with request id, session, notify window and `WFS_SUCCESS`. -/
def acceptedRecord (buf : WFSRESULT) (hService : HSERVICE) (hWnd : HWND) (reqId : REQUESTID) :
    WFSRESULT :=
  { buf with RequestID := reqId, hService := hService, lpBuffer := .raw hWnd,
             hResult := WFS_SUCCESS }

/-- The state after `WFPLock` of session `A` has been accepted in `st` (buffer
`buf`) and its thread `WFPLockProcess` has run. -/
def lockCompleted (st : State) (A : HSERVICE) (dwTimeOut : DWORD) (hWnd : HWND)
    (reqId : REQUESTID) (buf : WFSRESULT) : State :=
  WFPLockProcess (WFPLock st A dwTimeOut hWnd reqId (some buf)).2
    (acceptedRecord buf A hWnd reqId)

/-- The state after `WFPUnlock` of session `A` has been accepted in `st` (buffer
`buf`) and its thread `WFPUnLockProcess` has run. -/
def unlockCompleted (st : State) (A : HSERVICE) (hWnd : HWND) (reqId : REQUESTID)
    (buf : WFSRESULT) : State :=
  WFPUnLockProcess (WFPUnlock st A hWnd reqId (some buf)).2 (acceptedRecord buf A hWnd reqId)

/-- The initial state after `WFPOpen` of session 1 and of session 2 (window 100,
version words `0x0001ff03`). -/
def openedTwoSessions : State :=
  runOps initState
    [ .wfpOpen 1 100 false 5 1 0x0001ff03 (some versionRecord) 0x0001ff03 (some versionRecord)
        (some sampleBuffer),
      .wfpOpen 2 100 false 6 1 0x0001ff03 (some versionRecord) 0x0001ff03 (some versionRecord)
        (some sampleBuffer) ]

/-- The record `WFPGetInfo` hands to its thread for a query of category
`dwCategory` by session 1 (request 7, notify window 100) in `sampleBuffer`. -/
def getInfoRecord (dwCategory : DWORD) : WFSRESULT :=
  { zeroInit sampleBuffer with RequestID := 7, hService := 1, lpBuffer := .raw 100,
                               u := dwCategory }

/-- Session 2 submits a device reset while the device is unlocked, then session
1 locks the device and its lock thread (thread number 3, after the two open
threads and the worker) runs. -/
def submitThenLockedByOther : List Op :=
  [ .wfpExecute 2 WFS_CMD_ALM_RESET 100 11 (some sampleBuffer),
    .wfpLock 1 0 100 12 (some sampleBuffer),
    .thread 3 ⟨0, ResetAlarm, ResetDevice, none⟩ ]

/-- The invariant of the lock when bodies run as indivisible steps: the recorded
owner is non-`NULL` exactly when the lock state is `LOCKED`, and every lock
thread not yet run carries a non-`NULL` session. -/
def LockInvariant (st : State) : Prop :=
  (st.g_lock_hservice ≠ NULL ↔ st.g_lock_state = LOCKED) ∧
  ∀ r : WFSRESULT, Thread.WFPLockProcess r ∈ st.threads → r.hService ≠ NULL

/-- The invariant of C27: no queue entry has one of the three command codes
`WFPExecute` rejects. -/
def QueueInvariant (st : State) : Prop :=
  ∀ m ∈ st.g_wfs_msg_queue,
    m.lpWFSResult.u ≠ WFS_CMD_ALM_RESET_ALARM ∧ m.lpWFSResult.u ≠ WFS_CMD_ALM_SET_ALARM ∧
      m.lpWFSResult.u ≠ WFS_CMD_ALM_SYNCHRONIZE_COMMAND

/-- The lock thread of session 1 sets the state, `WFPClose` of session 2 runs
its whole critical section, then the lock thread sets the owner. -/
def lockThreadSplitByClose : List LockStatement :=
  [.assignState LOCKED, .assignState UNLOCKED, .assignOwner NULL, .assignOwner 1]

/-- The initial state after sessions 1 and 2 were opened and `WFPLock` of
session 1 (request 7, window 100) was accepted: its lock thread is created and
has not run. -/
def lockOfOneAccepted : State :=
  (WFPLock openedTwoSessions 1 0 100 7 (some sampleBuffer)).2

/-- The state after the lock thread of session 1 and `WFPClose` of session 2
(request 9) have both run to their end from `lockOfOneAccepted`, their critical
sections in the order `lockThreadSplitByClose`. -/
def closedDuringLockThread : State :=
  WFPLockProcess_rest
    (WFPClose_rest (execLockStatements lockOfOneAccepted lockThreadSplitByClose)
      2 100 9 (some sampleBuffer)).2
    (acceptedRecord sampleBuffer 1 100 7)

/-! ## Lemmas on the session guard -/

theorem invalidHService_of_isOpen {st : State} {s : HSERVICE} (h : isOpen st s = true) :
    invalidHService st s = false := by
  simpa [isOpen] using h

/-! ## Lemmas on `std::map` -/

theorem mapFind_mapErase_self {V : Type} (m : List (Nat × V)) (key : Nat) :
    mapFind (mapErase m key) key = none := by
  induction m with
  | nil => rfl
  | cons p m ih =>
    obtain ⟨k, v⟩ := p
    by_cases h : k = key <;> simp [mapErase, mapFind, h, ih]

theorem mapFind_mapErase_of_ne {V : Type} (m : List (Nat × V)) {key t : Nat} (h : t ≠ key) :
    mapFind (mapErase m key) t = mapFind m t := by
  induction m with
  | nil => rfl
  | cons p m ih =>
    obtain ⟨k, v⟩ := p
    by_cases hk : k = key
    · have hkt : ¬ k = t := fun e => h (e ▸ hk)
      simp only [mapErase, mapFind, hk, if_true, ih]
      rw [if_neg (fun e => hkt (hk.trans e))]
    · by_cases ht : k = t
      · simp only [mapErase, mapFind, if_neg hk, if_pos ht]
      · simp only [mapErase, mapFind, if_neg hk, if_neg ht, ih]

theorem invalidHService_of_null_or_absent {st : State} {h : HSERVICE}
    (hbad : h = NULL ∨ mapFind st.g_h_services h = none) : invalidHService st h = true := by
  rcases hbad with h0 | habs
  · simp [invalidHService, h0]
  · simp [invalidHService, habs]

/-! ## The lock check of `WFPExecute` (C1) -/

/-- C1, as stated, fails: in the state reached from two open sessions by an
accepted `WFPLock` of session 1 the lock state is `LOCK_PENDING`, and a
`WFPExecute` of the open session 2 is not rejected with `WFS_ERR_LOCKED`: it is
accepted and queued. -/
theorem WFPExecute_lock_pending_not_rejected :
    (WFPLock twoSessions 1 0 100 7 (some sampleBuffer)).2.g_lock_state = LOCK_PENDING ∧
    isOpen (WFPLock twoSessions 1 0 100 7 (some sampleBuffer)).2 2 = true ∧
    (WFPExecute (WFPLock twoSessions 1 0 100 7 (some sampleBuffer)).2 2 WFS_CMD_ALM_RESET 100 8
        (some sampleBuffer)).1 = WFS_SUCCESS ∧
    (WFPExecute (WFPLock twoSessions 1 0 100 7 (some sampleBuffer)).2 2 WFS_CMD_ALM_RESET 100 8
        (some sampleBuffer)).1 ≠ WFS_ERR_LOCKED := by
  decide

/-- C1, amended: for every lock state, owner and open session `s`, `WFPExecute`
returns `WFS_ERR_LOCKED` exactly when the lock state is `LOCKED` and the owner
is not `s`; with `UNLOCKED`, with `LOCK_PENDING` (whatever the owner) and with
`LOCKED` owned by `s` the request gets through the lock check. -/
theorem WFPExecute_locked_iff (st : State) (s : HSERVICE) (dwCommand : DWORD) (hWnd : HWND)
    (reqId : REQUESTID) (alloc : Option WFSRESULT) (hopen : isOpen st s = true) :
    (WFPExecute st s dwCommand hWnd reqId alloc).1 = WFS_ERR_LOCKED ↔
      (st.g_lock_state = LOCKED ∧ st.g_lock_hservice ≠ s) := by
  have hinv := invalidHService_of_isOpen hopen
  unfold WFPExecute
  simp only [hinv, Bool.false_eq_true, if_false]
  by_cases hl : st.g_lock_state = LOCKED <;> by_cases ho : st.g_lock_hservice = s
  all_goals cases alloc <;> simp [hl, ho] <;> split <;> simp

/-- Witness of `WFPExecute_locked_iff`: session 2 while session 1 holds the lock. -/
theorem WFPExecute_locked_iff_witness :
    isOpen lockedByOne 2 = true ∧
    ((WFPExecute lockedByOne 2 WFS_CMD_ALM_RESET 100 8 none).1 = WFS_ERR_LOCKED ↔
      (lockedByOne.g_lock_state = LOCKED ∧ lockedByOne.g_lock_hservice ≠ 2)) :=
  ⟨by decide, WFPExecute_locked_iff lockedByOne 2 WFS_CMD_ALM_RESET 100 8 none (by decide)⟩

/-! ## `WFPLock` (C2) -/

/-- C2: for an open session `s` and a successful allocation, `WFPLock` returns
`WFS_SUCCESS` exactly when the lock state was `UNLOCKED`; it then moves the lock
state to `LOCK_PENDING`, leaves the owner as it was and starts the thread
`WFPLockProcess` for a record of session `s`; when the state is `LOCKED` or
`LOCK_PENDING` it returns `WFS_ERR_LOCKED` and the state is unchanged. -/
theorem WFPLock_accepts_iff_unlocked (st : State) (s : HSERVICE) (dwTimeOut : DWORD)
    (hWnd : HWND) (reqId : REQUESTID) (buf : WFSRESULT) (hopen : isOpen st s = true) :
    ((WFPLock st s dwTimeOut hWnd reqId (some buf)).1 = WFS_SUCCESS ↔
        st.g_lock_state = UNLOCKED) ∧
    (st.g_lock_state = UNLOCKED →
        (WFPLock st s dwTimeOut hWnd reqId (some buf)).1 = WFS_SUCCESS ∧
        (WFPLock st s dwTimeOut hWnd reqId (some buf)).2.g_lock_state = LOCK_PENDING ∧
        (WFPLock st s dwTimeOut hWnd reqId (some buf)).2.g_lock_hservice = st.g_lock_hservice ∧
        ∃ r : WFSRESULT, r.hService = s ∧ r.RequestID = reqId ∧
          (WFPLock st s dwTimeOut hWnd reqId (some buf)).2 =
            createThread { st with g_lock_state := LOCK_PENDING } (.WFPLockProcess r)) ∧
    (st.g_lock_state = LOCKED ∨ st.g_lock_state = LOCK_PENDING →
        (WFPLock st s dwTimeOut hWnd reqId (some buf)).1 = WFS_ERR_LOCKED ∧
        (WFPLock st s dwTimeOut hWnd reqId (some buf)).2 = st) := by
  have hinv := invalidHService_of_isOpen hopen
  unfold WFPLock
  simp only [hinv, Bool.false_eq_true, if_false]
  cases hl : st.g_lock_state <;> simp [createThread]

/-- Witness of `WFPLock_accepts_iff_unlocked`: session 1 locks the unlocked device. -/
theorem WFPLock_accepts_iff_unlocked_witness :
    isOpen twoSessions 1 = true ∧
    (WFPLock twoSessions 1 0 100 7 (some sampleBuffer)).1 = WFS_SUCCESS ∧
    (WFPLock twoSessions 1 0 100 7 (some sampleBuffer)).2.g_lock_state = LOCK_PENDING :=
  ⟨by decide,
   ((WFPLock_accepts_iff_unlocked twoSessions 1 0 100 7 sampleBuffer (by decide)).2.1
      (by decide)).1,
   ((WFPLock_accepts_iff_unlocked twoSessions 1 0 100 7 sampleBuffer (by decide)).2.1
      (by decide)).2.1⟩

/-! ## The lock completion step (C3, C4) -/

/-- C3: when the lock state is `LOCK_PENDING`, `WFPLockProcess` for a record of
session `r.hService` leaves the state `LOCKED` with that session as owner and
appends exactly one message, `WFS_LOCK_COMPLETE` carrying the record, to the
messages sent; nothing else changes. -/
theorem WFPLockProcess_from_pending (st : State) (r : WFSRESULT)
    (hpending : st.g_lock_state = LOCK_PENDING) :
    (WFPLockProcess st r).g_lock_state = LOCKED ∧
    (WFPLockProcess st r).g_lock_hservice = r.hService ∧
    (WFPLockProcess st r).sent = st.sent ++ [⟨r.addr, WFS_LOCK_COMPLETE, r⟩] ∧
    (WFPLockProcess st r) =
      { st with g_lock_state := LOCKED, g_lock_hservice := r.hService,
                sent := st.sent ++ [⟨r.addr, WFS_LOCK_COMPLETE, r⟩] } := by
  have _ := hpending
  simp [WFPLockProcess, sendMessage]

/-- Witness of `WFPLockProcess_from_pending`: the lock thread of session 1 runs
right after its `WFPLock` was accepted. -/
theorem WFPLockProcess_from_pending_witness :
    lockAccepted.g_lock_state = LOCK_PENDING ∧
    (WFPLockProcess lockAccepted lockRequest).g_lock_state = LOCKED ∧
    (WFPLockProcess lockAccepted lockRequest).g_lock_hservice = 1 :=
  ⟨by decide,
   (WFPLockProcess_from_pending lockAccepted lockRequest (by decide)).1,
   (WFPLockProcess_from_pending lockAccepted lockRequest (by decide)).2.1⟩

/-- C4, as stated, fails: session 1 has its `WFPLock` accepted (the thread
`WFPLockProcess lockRequest` is created), session 2 calls `WFPClose`, which
resets the lock to `UNLOCKED`, and the lock thread then runs: it is not a no-op
but moves the lock from `UNLOCKED` to `LOCKED` with owner 1. -/
theorem WFPLockProcess_enters_locked_from_unlocked :
    lockAccepted.threads = [.WFPLockProcess lockRequest] ∧
    lockAcceptedThenClosed.g_lock_state = UNLOCKED ∧
    lockAcceptedThenClosed.g_lock_hservice = NULL ∧
    (WFPLockProcess lockAcceptedThenClosed lockRequest).g_lock_state = LOCKED ∧
    (WFPLockProcess lockAcceptedThenClosed lockRequest).g_lock_hservice = 1 := by
  decide

/-- C4, amended: `WFPLockProcess` does not test the lock state: from every lock
state and owner it leaves the state `LOCKED` with the session of its record as
owner.  It is the only step that enters `LOCKED`: after `WFPLock`, `WFPUnlock`,
`WFPClose`, `WFPUnLockProcess` and `WFPCloseProcess` the state is `LOCKED` only
if it was `LOCKED` before. -/
theorem WFPLockProcess_always_locks (st : State) (r : WFSRESULT) (s : HSERVICE)
    (dwTimeOut : DWORD) (hWnd : HWND) (reqId : REQUESTID) (alloc : Option WFSRESULT) :
    ((WFPLockProcess st r).g_lock_state = LOCKED ∧
      (WFPLockProcess st r).g_lock_hservice = r.hService) ∧
    ((WFPLock st s dwTimeOut hWnd reqId alloc).2.g_lock_state = LOCKED →
      st.g_lock_state = LOCKED) ∧
    ((WFPUnlock st s hWnd reqId alloc).2.g_lock_state = LOCKED → st.g_lock_state = LOCKED) ∧
    ((WFPClose st s hWnd reqId alloc).2.g_lock_state = LOCKED → st.g_lock_state = LOCKED) ∧
    ((WFPUnLockProcess st r).g_lock_state = LOCKED → st.g_lock_state = LOCKED) ∧
    ((WFPCloseProcess st r).g_lock_state = LOCKED → st.g_lock_state = LOCKED) := by
  refine ⟨by simp [WFPLockProcess, sendMessage], ?_, ?_, ?_, ?_, ?_⟩
  · unfold WFPLock
    cases alloc <;> cases hl : st.g_lock_state <;> cases hi : invalidHService st s <;>
      simp [createThread, hl]
  · unfold WFPUnlock
    cases alloc <;> cases hl : st.g_lock_state <;> cases hi : invalidHService st s <;>
      simp [createThread, hl]
  · unfold WFPClose
    cases alloc <;> cases hl : st.g_lock_state <;> cases hi : invalidHService st s <;>
      simp [createThread, hl]
  · simp [WFPUnLockProcess, sendMessage]
  · simp [WFPCloseProcess, sendMessage]

/-! ## `WFPUnlock` and its completion step (C5) -/

/-- C5, as stated, fails: session 1 is open and holds the lock, the state is not
`UNLOCKED`, but when the allocation of the result record fails `WFPUnlock` is
not accepted: it returns `WFS_ERR_INTERNAL_ERROR`, creates no thread, and the
lock stays `LOCKED`. -/
theorem WFPUnlock_not_accepted_on_alloc_failure :
    isOpen lockedByOne 1 = true ∧
    lockedByOne.g_lock_state = LOCKED ∧
    (WFPUnlock lockedByOne 1 100 7 none).1 = WFS_ERR_INTERNAL_ERROR ∧
    (WFPUnlock lockedByOne 1 100 7 none).1 ≠ WFS_SUCCESS ∧
    (WFPUnlock lockedByOne 1 100 7 none).2 = lockedByOne := by
  decide

/-- C5, amended: for every open session `s`, `WFPUnlock` returns `WFS_ERR_LOCKED`
and leaves the state unchanged when the lock state is `UNLOCKED`; otherwise,
when the allocation of the result record succeeds, it returns `WFS_SUCCESS`,
leaves the lock as it is and creates the thread `WFPUnLockProcess` for a record
of session `s`, and that thread, run in any state, leaves the lock `UNLOCKED`
with the owner cleared, whoever held the lock. -/
theorem WFPUnlock_then_process (st : State) (s : HSERVICE) (hWnd : HWND) (reqId : REQUESTID)
    (alloc : Option WFSRESULT) (buf : WFSRESULT) (hopen : isOpen st s = true) :
    (st.g_lock_state = UNLOCKED →
        (WFPUnlock st s hWnd reqId alloc).1 = WFS_ERR_LOCKED ∧
        (WFPUnlock st s hWnd reqId alloc).2 = st) ∧
    (st.g_lock_state ≠ UNLOCKED →
        (WFPUnlock st s hWnd reqId (some buf)).1 = WFS_SUCCESS ∧
        ∃ r : WFSRESULT, r.hService = s ∧ r.RequestID = reqId ∧
          (WFPUnlock st s hWnd reqId (some buf)).2 = createThread st (.WFPUnLockProcess r) ∧
          ∀ st2 : State,
            (WFPUnLockProcess st2 r).g_lock_state = UNLOCKED ∧
            (WFPUnLockProcess st2 r).g_lock_hservice = NULL ∧
            (WFPUnLockProcess st2 r).sent = st2.sent ++ [⟨r.addr, WFS_UNLOCK_COMPLETE, r⟩]) := by
  have hinv := invalidHService_of_isOpen hopen
  unfold WFPUnlock
  simp only [hinv, Bool.false_eq_true, if_false]
  cases hl : st.g_lock_state <;> simp [createThread, WFPUnLockProcess, sendMessage]

/-- Witness of `WFPUnlock_then_process`: session 2 unlocks the device that
session 1 holds. -/
theorem WFPUnlock_then_process_witness :
    isOpen lockedByOne 2 = true ∧ lockedByOne.g_lock_state ≠ UNLOCKED ∧
    (WFPUnlock lockedByOne 2 100 7 (some sampleBuffer)).1 = WFS_SUCCESS :=
  ⟨by decide, by decide,
   ((WFPUnlock_then_process lockedByOne 2 100 7 none sampleBuffer (by decide)).2
      (by decide)).1⟩

/-! ## `WFPClose` (C6) -/

/-- C6: for an open session `s` and a successful allocation, `WFPClose` returns
`WFS_SUCCESS`; afterwards `s` is not open and every other handle is open exactly
if it was before; if `s` held the lock, the lock is `UNLOCKED` with the owner
cleared; and `WFPLock`, `WFPUnlock`, `WFPGetInfo`, `WFPExecute` and `WFPClose`
on `s` in the state after the call all return `WFS_ERR_INVALID_HSERVICE`. -/
theorem WFPClose_closes_session (st : State) (s : HSERVICE) (hWnd : HWND) (reqId : REQUESTID)
    (buf : WFSRESULT) (hopen : isOpen st s = true) :
    (WFPClose st s hWnd reqId (some buf)).1 = WFS_SUCCESS ∧
    isOpen (WFPClose st s hWnd reqId (some buf)).2 s = false ∧
    (∀ t : HSERVICE, t ≠ s →
        isOpen (WFPClose st s hWnd reqId (some buf)).2 t = isOpen st t) ∧
    (st.g_lock_state = LOCKED ∧ st.g_lock_hservice = s →
        (WFPClose st s hWnd reqId (some buf)).2.g_lock_state = UNLOCKED ∧
        (WFPClose st s hWnd reqId (some buf)).2.g_lock_hservice = NULL) ∧
    (∀ (dwTimeOut dwCategory dwCommand : DWORD) (hWnd2 : HWND) (reqId2 : REQUESTID)
        (alloc2 : Option WFSRESULT),
        (WFPLock (WFPClose st s hWnd reqId (some buf)).2 s dwTimeOut hWnd2 reqId2 alloc2).1
          = WFS_ERR_INVALID_HSERVICE ∧
        (WFPUnlock (WFPClose st s hWnd reqId (some buf)).2 s hWnd2 reqId2 alloc2).1
          = WFS_ERR_INVALID_HSERVICE ∧
        (WFPGetInfo (WFPClose st s hWnd reqId (some buf)).2 s dwCategory hWnd2 reqId2 alloc2).1
          = WFS_ERR_INVALID_HSERVICE ∧
        (WFPExecute (WFPClose st s hWnd reqId (some buf)).2 s dwCommand hWnd2 reqId2 alloc2).1
          = WFS_ERR_INVALID_HSERVICE ∧
        (WFPClose (WFPClose st s hWnd reqId (some buf)).2 s hWnd2 reqId2 alloc2).1
          = WFS_ERR_INVALID_HSERVICE) := by
  have hinv := invalidHService_of_isOpen hopen
  have hst : (WFPClose st s hWnd reqId (some buf)).2.g_h_services
      = mapErase st.g_h_services s := by
    simp [WFPClose, hinv, createThread]
  have hclosed : invalidHService (WFPClose st s hWnd reqId (some buf)).2 s = true := by
    simp [invalidHService, hst, mapFind_mapErase_self]
  refine ⟨by simp [WFPClose, hinv], by simp [isOpen, hclosed], ?_, ?_, ?_⟩
  · intro t ht
    simp [isOpen, invalidHService, hst, mapFind_mapErase_of_ne _ ht]
  · intro _
    simp [WFPClose, hinv, createThread]
  · intro dwTimeOut dwCategory dwCommand hWnd2 reqId2 alloc2
    refine ⟨?_, ?_, ?_, ?_, ?_⟩
    · simp [WFPLock, hclosed]
    · simp [WFPUnlock, hclosed]
    · simp [WFPGetInfo, hclosed]
    · simp [WFPExecute, hclosed]
    · rw [WFPClose.eq_1 (WFPClose st s hWnd reqId (some buf)).2]
      simp [hclosed]

/-- Witness of `WFPClose_closes_session`: session 1, holding the lock, closes. -/
theorem WFPClose_closes_session_witness :
    isOpen lockedByOne 1 = true ∧
    (WFPClose lockedByOne 1 100 9 (some sampleBuffer)).1 = WFS_SUCCESS ∧
    isOpen (WFPClose lockedByOne 1 100 9 (some sampleBuffer)).2 1 = false :=
  ⟨by decide,
   (WFPClose_closes_session lockedByOne 1 100 9 sampleBuffer (by decide)).1,
   (WFPClose_closes_session lockedByOne 1 100 9 sampleBuffer (by decide)).2.1⟩

/-! ## Calls on a handle that is not open (C7, C8) -/

/-- C7: for a session handle that is `NULL` or not in the session registry,
`WFPExecute`, `WFPLock`, `WFPUnlock`, `WFPGetInfo`, `WFPCancelAsyncRequest`,
`WFPClose` and `WFPRegister` each return `WFS_ERR_INVALID_HSERVICE` and leave
the whole state (registry, lock, subscription table, queue, threads, messages)
unchanged. -/
theorem invalid_session_rejected (st : State) (h : HSERVICE)
    (dwCommand dwTimeOut dwCategory dwEventClass : DWORD) (hWnd hWndReg : HWND)
    (reqId : REQUESTID) (alloc : Option WFSRESULT)
    (hbad : h = NULL ∨ mapFind st.g_h_services h = none) :
    WFPExecute st h dwCommand hWnd reqId alloc = (WFS_ERR_INVALID_HSERVICE, st) ∧
    WFPLock st h dwTimeOut hWnd reqId alloc = (WFS_ERR_INVALID_HSERVICE, st) ∧
    WFPUnlock st h hWnd reqId alloc = (WFS_ERR_INVALID_HSERVICE, st) ∧
    WFPGetInfo st h dwCategory hWnd reqId alloc = (WFS_ERR_INVALID_HSERVICE, st) ∧
    WFPCancelAsyncRequest st h reqId = (WFS_ERR_INVALID_HSERVICE, st) ∧
    WFPClose st h hWnd reqId alloc = (WFS_ERR_INVALID_HSERVICE, st) ∧
    WFPRegister st h dwEventClass hWndReg hWnd reqId alloc = (WFS_ERR_INVALID_HSERVICE, st) := by
  have hinv := invalidHService_of_null_or_absent hbad
  refine ⟨?_, ?_, ?_, ?_, ?_, ?_, ?_⟩
  · simp [WFPExecute, hinv]
  · simp [WFPLock, hinv]
  · simp [WFPUnlock, hinv]
  · simp [WFPGetInfo, hinv]
  · simp [WFPCancelAsyncRequest, hinv]
  · simp [WFPClose, hinv]
  · simp [WFPRegister, hinv]

/-- Witness of `invalid_session_rejected`: handle 3 while only 1 and 2 are open. -/
theorem invalid_session_rejected_witness :
    ((3 : HSERVICE) = NULL ∨ mapFind lockedByOne.g_h_services 3 = none) ∧
    WFPExecute lockedByOne 3 WFS_CMD_ALM_RESET 100 7 (some sampleBuffer)
      = (WFS_ERR_INVALID_HSERVICE, lockedByOne) :=
  ⟨by decide,
   (invalid_session_rejected lockedByOne 3 WFS_CMD_ALM_RESET 0 0 0 100 100 7 (some sampleBuffer)
      (by decide)).1⟩

/-- C8 fails on the code: `WFPDeregister` never looks at the session handle.
After session 1 registered listener 100 and was closed, no session is open; a
`WFPDeregister` for the closed session 1, and one for the `NULL` session with
the wildcard listener, both return `WFS_SUCCESS` and empty the table. -/
theorem WFPDeregister_ignores_session :
    isOpen registeredThenClosed 1 = false ∧
    registeredThenClosed.g_wfs_event = [(100, ⟨SERVICE_EVENTS, 1⟩)] ∧
    (WFPDeregister registeredThenClosed 1 SERVICE_EVENTS 100 100 7 (some sampleBuffer)).1
      = WFS_SUCCESS ∧
    (WFPDeregister registeredThenClosed 1 SERVICE_EVENTS 100 100 7
      (some sampleBuffer)).2.g_wfs_event = [] ∧
    (WFPDeregister registeredThenClosed NULL 0 NULL 100 7 (some sampleBuffer)).1
      = WFS_SUCCESS ∧
    (WFPDeregister registeredThenClosed NULL 0 NULL 100 7 (some sampleBuffer)).2.g_wfs_event
      = [] := by
  decide

/-! ## `WFPOpen` and `ProcessVersions` (C9, C10) -/

/-- C9 fails on the code: `WFPOpen` calls `ProcessVersions` and drops its result.
With a valid window, non-null version pointers and the required SPI version
word `0xff04` above the ceiling, negotiation yields `WFS_ERR_SPI_VER_TOO_HIGH`,
yet `WFPOpen` returns `WFS_SUCCESS` and session 1 is recorded as open. -/
theorem WFPOpen_ignores_version_mismatch :
    (ProcessVersions 0x0001ff04 0x0001ff03 (some versionRecord) (some versionRecord)).1
      = WFS_ERR_SPI_VER_TOO_HIGH ∧
    isOpen initState 1 = false ∧
    (WFPOpen initState 1 100 false 5 1 0x0001ff04 (some versionRecord)
      0x0001ff03 (some versionRecord) (some sampleBuffer)).1 = WFS_SUCCESS ∧
    isOpen (WFPOpen initState 1 100 false 5 1 0x0001ff04 (some versionRecord)
      0x0001ff03 (some versionRecord) (some sampleBuffer)).2.1 1 = true := by
  decide

/-- C10, as stated, fails: with the SPI low version `0` below the floor and the
service high version `0xff04` above the ceiling, `ProcessVersions` returns
`WFS_ERR_SRVC_VER_TOO_HIGH`, while the first failing check in the order SPI too
high, SPI too low, service too high, service too low is
`WFS_ERR_SPI_VER_TOO_LOW`. -/
theorem ProcessVersions_not_spec_order :
    HIWORD 0x0000ff03 < 0x0001 ∧ LOWORD 0x0001ff04 > 0xff03 ∧
    (ProcessVersions 0x0000ff03 0x0001ff04 none none).1 = WFS_ERR_SRVC_VER_TOO_HIGH ∧
    firstFailing (versionChecksSpecOrder 0x0000ff03 0x0001ff04) = WFS_ERR_SPI_VER_TOO_LOW ∧
    (ProcessVersions 0x0000ff03 0x0001ff04 none none).1
      ≠ firstFailing (versionChecksSpecOrder 0x0000ff03 0x0001ff04) := by
  decide

/-- C10, amended: `ProcessVersions` selects its error by checking in the order
SPI too high, service too high, SPI too low, service too low: for every pair of
required version words and every pair of version pointers the result is the
error of the first check in that order that fails, and `WFS_SUCCESS` when none
fails. -/
theorem ProcessVersions_code_order (dwSPIVersionsRequired dwSrvcVersionsRequired : DWORD)
    (lpSPIVersion lpSrvcVersion : Option WFSVERSION) :
    (ProcessVersions dwSPIVersionsRequired dwSrvcVersionsRequired lpSPIVersion lpSrvcVersion).1
      = firstFailing (versionChecksCodeOrder dwSPIVersionsRequired dwSrvcVersionsRequired) := by
  simp only [ProcessVersions, versionChecksCodeOrder, firstFailing, decide_eq_true_eq]

/-! ## `ProcessVersions`: ceiling and success (C11) -/

/-- C11: whenever the required SPI high version `LOWORD dwSPIVersionsRequired`
exceeds `0xff03`, `ProcessVersions` returns `WFS_ERR_SPI_VER_TOO_HIGH` whatever
the other three version words and the version pointers are; and it returns
`WFS_SUCCESS` exactly when both low words are at most `0xff03` and both high
words are at least `0x0001`. -/
theorem ProcessVersions_ceiling_and_success
    (dwSPIVersionsRequired dwSrvcVersionsRequired : DWORD)
    (lpSPIVersion lpSrvcVersion : Option WFSVERSION) :
    (LOWORD dwSPIVersionsRequired > 0xff03 →
      (ProcessVersions dwSPIVersionsRequired dwSrvcVersionsRequired lpSPIVersion
        lpSrvcVersion).1 = WFS_ERR_SPI_VER_TOO_HIGH) ∧
    ((ProcessVersions dwSPIVersionsRequired dwSrvcVersionsRequired lpSPIVersion
        lpSrvcVersion).1 = WFS_SUCCESS ↔
      (LOWORD dwSPIVersionsRequired ≤ 0xff03 ∧ LOWORD dwSrvcVersionsRequired ≤ 0xff03 ∧
        HIWORD dwSPIVersionsRequired ≥ 0x0001 ∧ HIWORD dwSrvcVersionsRequired ≥ 0x0001)) := by
  simp only [ProcessVersions]
  constructor
  · intro h
    simp [h]
  · by_cases h1 : LOWORD dwSPIVersionsRequired > 0xff03
    · simp [h1]
    · by_cases h2 : LOWORD dwSrvcVersionsRequired > 0xff03
      · simp [h1, h2]
      · by_cases h3 : HIWORD dwSPIVersionsRequired < 0x0001
        · simp [h1, h2, h3]
        · by_cases h4 : HIWORD dwSrvcVersionsRequired < 0x0001
          · simp [h1, h2, h3, h4]
          · simp only [h1, h2, h3, h4, if_false, true_iff]
            omega

/-! ## Lemmas on `mapAssign` and on masks -/

theorem mapFind_mapAssign_self {V : Type} (m : List (Nat × V)) (key : Nat) (v : V) :
    mapFind (mapAssign m key v) key = some v := by
  induction m with
  | nil => simp [mapAssign, mapFind]
  | cons p m ih =>
    obtain ⟨k, w⟩ := p
    by_cases h1 : key < k
    · simp [mapAssign, mapFind, h1]
    · by_cases h2 : key = k
      · simp [mapAssign, mapFind, h1, h2]
      · have h3 : ¬ k = key := fun e => h2 e.symm
        simp only [mapAssign, if_neg h1, if_neg h2, mapFind, if_neg h3, ih]

theorem mapFind_mapAssign_of_ne {V : Type} (m : List (Nat × V)) {key t : Nat} (v : V)
    (h : t ≠ key) : mapFind (mapAssign m key v) t = mapFind m t := by
  have hkt : ¬ key = t := fun e => h e.symm
  induction m with
  | nil => simp [mapAssign, mapFind, hkt]
  | cons p m ih =>
    obtain ⟨k, w⟩ := p
    by_cases h1 : key < k
    · simp only [mapAssign, if_pos h1, mapFind, if_neg hkt]
    · by_cases h2 : key = k
      · have h3 : ¬ k = t := fun e => hkt (h2.trans e)
        simp only [mapAssign, if_neg h1, if_pos h2, mapFind, if_neg hkt, if_neg h3]
      · by_cases h3 : k = t
        · simp only [mapAssign, if_neg h1, if_neg h2, mapFind, if_pos h3]
        · simp only [mapAssign, if_neg h1, if_neg h2, mapFind, if_neg h3, ih]

theorem and_dwordNot_self (x : DWORD) : x &&& dwordNot x = 0 := by
  apply Nat.eq_of_testBit_eq
  intro i
  have h1 : (0xFFFFFFFF : Nat) = 2 ^ 32 - 1 := by norm_num
  have h2 : (4294967296 : Nat) = 2 ^ 32 := by norm_num
  unfold dwordNot
  rw [h1, h2]
  simp only [Nat.testBit_and, Nat.testBit_xor, Nat.testBit_two_pow_sub_one,
    Nat.testBit_mod_two_pow, Nat.zero_testBit]
  cases x.testBit i <;> cases decide (i < 32) <;> rfl

theorem WFPRegister_events (st : State) (s : HSERVICE) (m : DWORD) (h hWnd : HWND)
    (reqId : REQUESTID) (alloc : Option WFSRESULT) (hopen : isOpen st s = true)
    (hmask : noEventClass m = false) :
    (WFPRegister st s m h hWnd reqId alloc).2.g_wfs_event =
      (match mapFind st.g_wfs_event h with
        | some e => mapAssign st.g_wfs_event h { e with dwEvent := e.dwEvent ||| m }
        | none => mapAssign st.g_wfs_event h { hService := s, dwEvent := m }) ∧
    (WFPRegister st s m h hWnd reqId alloc).2.g_h_services = st.g_h_services := by
  have hinv := invalidHService_of_isOpen hopen
  unfold WFPRegister
  cases alloc <;> simp [hinv, hmask, createThread]

theorem WFPDeregister_events (st : State) (s : HSERVICE) (m : DWORD) (h hWnd : HWND)
    (reqId : REQUESTID) (alloc : Option WFSRESULT) (events : List (HWND × WFS_EVENTS))
    (hev : deregisterEvents st.g_wfs_event m h = some events) :
    (WFPDeregister st s m h hWnd reqId alloc).2.g_wfs_event = events ∧
    (WFPDeregister st s m h hWnd reqId alloc).1 ≠ WFS_ERR_INVALID_HWNDREG ∧
    ∀ buf, alloc = some buf → (WFPDeregister st s m h hWnd reqId alloc).1 = WFS_SUCCESS := by
  unfold WFPDeregister
  cases alloc <;> simp [hev, createThread]

/-! ## Registration and deregistration (C12, C13, C14) -/

/-- C12: for an open session `s`, a listener `h` not yet in the subscription
table and class masks `m1`, `m2` that pass the mask test, `WFPRegister h m1`
followed by `WFPRegister h m2` leaves `h` subscribed with mask `m1 ||| m2` for
session `s` and every other listener as it was, and a following
`WFPDeregister h (m1 ||| m2)` leaves `h` out of the table (whatever the outcome
of the three allocations). -/
theorem WFPRegister_twice_then_deregister (st : State) (s : HSERVICE) (h : HWND)
    (m1 m2 : DWORD) (hWnd : HWND) (r1 r2 r3 : REQUESTID) (a1 a2 a3 : Option WFSRESULT)
    (hopen : isOpen st s = true) (hnew : mapFind st.g_wfs_event h = none)
    (hm1 : noEventClass m1 = false) (hm2 : noEventClass m2 = false) :
    mapFind (WFPRegister (WFPRegister st s m1 h hWnd r1 a1).2 s m2 h hWnd r2 a2).2.g_wfs_event h
      = some ⟨m1 ||| m2, s⟩ ∧
    (∀ t : HWND, t ≠ h →
      mapFind (WFPRegister (WFPRegister st s m1 h hWnd r1 a1).2 s m2 h hWnd r2 a2).2.g_wfs_event t
        = mapFind st.g_wfs_event t) ∧
    mapFind (WFPDeregister (WFPRegister (WFPRegister st s m1 h hWnd r1 a1).2 s m2 h hWnd r2 a2).2
      s (m1 ||| m2) h hWnd r3 a3).2.g_wfs_event h = none := by
  obtain ⟨he1, hs1⟩ := WFPRegister_events st s m1 h hWnd r1 a1 hopen hm1
  rw [hnew] at he1
  have hopen1 : isOpen (WFPRegister st s m1 h hWnd r1 a1).2 s = true := by
    simpa [isOpen, invalidHService, hs1] using hopen
  have hfind1 : mapFind (WFPRegister st s m1 h hWnd r1 a1).2.g_wfs_event h
      = some ⟨m1, s⟩ := by
    rw [he1]; exact mapFind_mapAssign_self _ _ _
  obtain ⟨he2, _⟩ :=
    WFPRegister_events (WFPRegister st s m1 h hWnd r1 a1).2 s m2 h hWnd r2 a2 hopen1 hm2
  rw [hfind1] at he2
  have hfind2 :
      mapFind (WFPRegister (WFPRegister st s m1 h hWnd r1 a1).2 s m2 h hWnd r2 a2).2.g_wfs_event h
        = some ⟨m1 ||| m2, s⟩ := by
    rw [he2]; exact mapFind_mapAssign_self _ _ _
  refine ⟨hfind2, ?_, ?_⟩
  · intro t ht
    rw [he2, mapFind_mapAssign_of_ne _ _ ht, he1, mapFind_mapAssign_of_ne _ _ ht]
  · have hdereg : ∃ events,
        deregisterEvents
          (WFPRegister (WFPRegister st s m1 h hWnd r1 a1).2 s m2 h hWnd r2 a2).2.g_wfs_event
          (m1 ||| m2) h = some events ∧ mapFind events h = none := by
      unfold deregisterEvents
      by_cases h0 : h = NULL
      · exact ⟨[], by simp [h0], rfl⟩
      · rw [hfind2]
        simp [h0, and_dwordNot_self, mapFind_mapErase_self]
    obtain ⟨events, hev, hnone⟩ := hdereg
    rw [(WFPDeregister_events _ s (m1 ||| m2) h hWnd r3 a3 events hev).1]
    exact hnone

/-- Witness of `WFPRegister_twice_then_deregister`: session 1 registers window
100 for service events, then for user events, then deregisters both. -/
theorem WFPRegister_twice_then_deregister_witness :
    isOpen twoSessions 1 = true ∧ mapFind twoSessions.g_wfs_event 100 = none ∧
    noEventClass SERVICE_EVENTS = false ∧ noEventClass USER_EVENTS = false ∧
    mapFind (WFPDeregister (WFPRegister (WFPRegister twoSessions 1 SERVICE_EVENTS 100 100 5
      (some sampleBuffer)).2 1 USER_EVENTS 100 100 6 (some sampleBuffer)).2
      1 (SERVICE_EVENTS ||| USER_EVENTS) 100 100 7 (some sampleBuffer)).2.g_wfs_event 100
      = none :=
  ⟨by decide, by decide, by decide, by decide,
   (WFPRegister_twice_then_deregister twoSessions 1 100 SERVICE_EVENTS USER_EVENTS 100 5 6 7
    (some sampleBuffer) (some sampleBuffer) (some sampleBuffer)
    (by decide) (by decide) (by decide) (by decide)).2.2⟩

/-- C13: `WFPDeregister` with the `NULL` wildcard listener empties the whole
subscription table; with a registered (non-`NULL`) listener its mask becomes the
old mask AND NOT `dwEventClass`, the entry being removed exactly when that mask
is zero, and the entry of every other listener is unchanged; with a non-`NULL`
listener that is not registered it returns `WFS_ERR_INVALID_HWNDREG` and leaves
the state unchanged. -/
theorem WFPDeregister_table (st : State) (s : HSERVICE) (dwEventClass : DWORD)
    (hWndReg hWnd : HWND) (reqId : REQUESTID) (alloc : Option WFSRESULT) :
    (hWndReg = NULL →
      (WFPDeregister st s dwEventClass hWndReg hWnd reqId alloc).2.g_wfs_event = []) ∧
    (hWndReg ≠ NULL → ∀ e : WFS_EVENTS, mapFind st.g_wfs_event hWndReg = some e →
      mapFind (WFPDeregister st s dwEventClass hWndReg hWnd reqId alloc).2.g_wfs_event hWndReg
        = (if e.dwEvent &&& dwordNot dwEventClass = 0 then none
            else some ⟨e.dwEvent &&& dwordNot dwEventClass, e.hService⟩) ∧
      ∀ t : HWND, t ≠ hWndReg →
        mapFind (WFPDeregister st s dwEventClass hWndReg hWnd reqId alloc).2.g_wfs_event t
          = mapFind st.g_wfs_event t) ∧
    (hWndReg ≠ NULL → mapFind st.g_wfs_event hWndReg = none →
      WFPDeregister st s dwEventClass hWndReg hWnd reqId alloc
        = (WFS_ERR_INVALID_HWNDREG, st)) := by
  refine ⟨?_, ?_, ?_⟩
  · intro h0
    have hev : deregisterEvents st.g_wfs_event dwEventClass hWndReg = some [] := by
      simp [deregisterEvents, h0]
    exact (WFPDeregister_events st s dwEventClass hWndReg hWnd reqId alloc [] hev).1
  · intro h0 e he
    by_cases hz : e.dwEvent &&& dwordNot dwEventClass = 0
    · have hev : deregisterEvents st.g_wfs_event dwEventClass hWndReg
          = some (mapErase (mapAssign st.g_wfs_event hWndReg
              { e with dwEvent := e.dwEvent &&& dwordNot dwEventClass }) hWndReg) := by
        simp [deregisterEvents, h0, he, hz]
      rw [(WFPDeregister_events st s dwEventClass hWndReg hWnd reqId alloc _ hev).1]
      refine ⟨by simp [hz, mapFind_mapErase_self], ?_⟩
      intro t ht
      rw [mapFind_mapErase_of_ne _ ht, mapFind_mapAssign_of_ne _ _ ht]
    · have hev : deregisterEvents st.g_wfs_event dwEventClass hWndReg
          = some (mapAssign st.g_wfs_event hWndReg
              { e with dwEvent := e.dwEvent &&& dwordNot dwEventClass }) := by
        simp [deregisterEvents, h0, he, hz]
      rw [(WFPDeregister_events st s dwEventClass hWndReg hWnd reqId alloc _ hev).1]
      refine ⟨by simp [hz, mapFind_mapAssign_self], ?_⟩
      intro t ht
      rw [mapFind_mapAssign_of_ne _ _ ht]
  · intro h0 hnone
    simp [WFPDeregister, deregisterEvents, h0, hnone]

/-- C14: for an open session, `WFPRegister` returns `WFS_ERR_USER_ERROR`, with
the state unchanged, exactly when the mask contains none of the four event
classes; a mask that contains at least one of them is never rejected with
`WFS_ERR_USER_ERROR` and is stored without being filtered: as the mask of a new
entry for session `s`, or ORed into the mask of the entry the listener already
has; with a successful allocation the call then returns `WFS_SUCCESS`. -/
theorem WFPRegister_mask_check (st : State) (s : HSERVICE) (m : DWORD) (hWndReg hWnd : HWND)
    (reqId : REQUESTID) (alloc : Option WFSRESULT) (hopen : isOpen st s = true) :
    (((WFPRegister st s m hWndReg hWnd reqId alloc).1 = WFS_ERR_USER_ERROR ∧
        (WFPRegister st s m hWndReg hWnd reqId alloc).2 = st) ↔
      (m &&& SERVICE_EVENTS ≠ SERVICE_EVENTS ∧ m &&& USER_EVENTS ≠ USER_EVENTS ∧
        m &&& SYSTEM_EVENTS ≠ SYSTEM_EVENTS ∧ m &&& EXECUTE_EVENTS ≠ EXECUTE_EVENTS)) ∧
    ((WFPRegister st s m hWndReg hWnd reqId alloc).1 = WFS_ERR_USER_ERROR ↔
      (m &&& SERVICE_EVENTS ≠ SERVICE_EVENTS ∧ m &&& USER_EVENTS ≠ USER_EVENTS ∧
        m &&& SYSTEM_EVENTS ≠ SYSTEM_EVENTS ∧ m &&& EXECUTE_EVENTS ≠ EXECUTE_EVENTS)) ∧
    (¬ (m &&& SERVICE_EVENTS ≠ SERVICE_EVENTS ∧ m &&& USER_EVENTS ≠ USER_EVENTS ∧
        m &&& SYSTEM_EVENTS ≠ SYSTEM_EVENTS ∧ m &&& EXECUTE_EVENTS ≠ EXECUTE_EVENTS) →
      mapFind (WFPRegister st s m hWndReg hWnd reqId alloc).2.g_wfs_event hWndReg
        = some (match mapFind st.g_wfs_event hWndReg with
                | some e => ⟨e.dwEvent ||| m, e.hService⟩
                | none => ⟨m, s⟩) ∧
      ∀ buf : WFSRESULT, alloc = some buf →
        (WFPRegister st s m hWndReg hWnd reqId alloc).1 = WFS_SUCCESS) := by
  have hinv := invalidHService_of_isOpen hopen
  have hno : noEventClass m = true ↔
      (m &&& SERVICE_EVENTS ≠ SERVICE_EVENTS ∧ m &&& USER_EVENTS ≠ USER_EVENTS ∧
        m &&& SYSTEM_EVENTS ≠ SYSTEM_EVENTS ∧ m &&& EXECUTE_EVENTS ≠ EXECUTE_EVENTS) := by
    simp [noEventClass, and_assoc]
  rw [← hno]
  cases hm : noEventClass m
  · have hev := (WFPRegister_events st s m hWndReg hWnd reqId alloc hopen hm).1
    have hret : (WFPRegister st s m hWndReg hWnd reqId alloc).1 ≠ WFS_ERR_USER_ERROR := by
      unfold WFPRegister
      cases alloc <;> simp [hinv, hm]
    refine ⟨by simp [hret], by simp [hret], ?_⟩
    intro _
    constructor
    · rw [hev]
      cases hf : mapFind st.g_wfs_event hWndReg <;> simp [mapFind_mapAssign_self]
    · intro buf hbuf
      simp [WFPRegister, hinv, hm, hbuf]
  · have hrej : WFPRegister st s m hWndReg hWnd reqId alloc = (WFS_ERR_USER_ERROR, st) := by
      simp [WFPRegister, hinv, hm]
    simp [hrej]

/-- Witness of `WFPRegister_mask_check`: mask `0x10` holds none of the four
classes and is rejected. -/
theorem WFPRegister_mask_check_witness :
    isOpen twoSessions 1 = true ∧
    (WFPRegister twoSessions 1 0x10 100 100 5 (some sampleBuffer)).1 = WFS_ERR_USER_ERROR :=
  ⟨by decide,
   ((WFPRegister_mask_check twoSessions 1 0x10 100 100 5 (some sampleBuffer)
      (by decide)).2.1).2 (by decide)⟩

/-! ## `WFPSendEvent` (C15) -/

theorem sendEventLoop_all_allocated (evt data : Int) (bufs : HWND → WFSRESULT)
    (mores : HWND → Nat) (events : List (HWND × WFS_EVENTS)) (st : State) :
    sendEventLoop evt data (fun h => some (bufs h)) (fun h => some (mores h)) events st
      = some (WFS_SUCCESS,
          { st with
            sent := st.sent ++
              (events.filter (fun p => anyEventClass p.2.dwEvent)).map
                (fun p => ⟨p.1, WFS_USER_EVENT,
                  eventRecord (bufs p.1) (mores p.1) p.2.hService evt data⟩) }) := by
  induction events generalizing st with
  | nil => simp [sendEventLoop]
  | cons p rest ih =>
    obtain ⟨h, e⟩ := p
    by_cases hc : anyEventClass e.dwEvent = true
    · simp [sendEventLoop, hc, ih, sendMessage, List.filter_cons]
    · simp [sendEventLoop, hc, ih, List.filter_cons]

/-- C15: when every allocation succeeds, `WFPSendEvent evt data` returns `0`
(`WFS_SUCCESS`), leaves everything but the message log unchanged, and appends to
the log exactly one message per table entry whose mask holds at least one of
the four event classes, in table order, addressed to the listener of the entry,
and none for any other entry; the record of each message carries the event id
`evt` (as a `DWORD`), the low 16 bits of `data` and the session recorded in the
entry. -/
theorem WFPSendEvent_fanout (st : State) (evt data : Int) (bufs : HWND → WFSRESULT)
    (mores : HWND → Nat) :
    WFPSendEvent st evt data (fun h => some (bufs h)) (fun h => some (mores h))
      = some (WFS_SUCCESS,
          { st with
            sent := st.sent ++
              (st.g_wfs_event.filter (fun p => anyEventClass p.2.dwEvent)).map
                (fun p => ⟨p.1, WFS_USER_EVENT,
                  eventRecord (bufs p.1) (mores p.1) p.2.hService evt data⟩) }) ∧
    (∀ (buf : WFSRESULT) (more : Nat) (hService : HSERVICE),
      (eventRecord buf more hService evt data).u = (evt % 4294967296).toNat ∧
      (eventRecord buf more hService evt data).lpBuffer = .word more (data % 65536).toNat ∧
      (eventRecord buf more hService evt data).hService = hService) := by
  refine ⟨?_, ?_⟩
  · unfold WFPSendEvent
    exact sendEventLoop_all_allocated evt data bufs mores st.g_wfs_event st
  · intro buf more hService
    simp [eventRecord]

/-! ## `WFPExecute`: acceptance and rejection (C16, C17) -/

/-- C16: whenever `WFPExecute` returns `WFS_SUCCESS`, the allocation succeeded
and the new queue is the old queue followed by exactly one new entry, which
carries the given notify window, session, request id and command code with
`bCancelled` false; the lock state, the lock owner, the session registry and
the subscription table are unchanged. -/
theorem WFPExecute_accepted_enqueues (st : State) (s : HSERVICE) (dwCommand : DWORD)
    (hWnd : HWND) (reqId : REQUESTID) (alloc : Option WFSRESULT)
    (hacc : (WFPExecute st s dwCommand hWnd reqId alloc).1 = WFS_SUCCESS) :
    ∃ buf : WFSRESULT, alloc = some buf ∧
      (WFPExecute st s dwCommand hWnd reqId alloc).2.g_wfs_msg_queue =
        st.g_wfs_msg_queue ++
          [{ hWnd := hWnd,
             lpWFSResult := { buf with RequestID := reqId, hService := s, u := dwCommand },
             lpDataReceived := NULL, bCancelled := false }] ∧
      (WFPExecute st s dwCommand hWnd reqId alloc).2.g_lock_state = st.g_lock_state ∧
      (WFPExecute st s dwCommand hWnd reqId alloc).2.g_lock_hservice = st.g_lock_hservice ∧
      (WFPExecute st s dwCommand hWnd reqId alloc).2.g_h_services = st.g_h_services ∧
      (WFPExecute st s dwCommand hWnd reqId alloc).2.g_wfs_event = st.g_wfs_event ∧
      (WFPExecute st s dwCommand hWnd reqId alloc).2.sent = st.sent := by
  unfold WFPExecute at hacc ⊢
  split at hacc
  · simp at hacc
  · split at hacc
    · simp at hacc
    · split at hacc
      · simp at hacc
      · rename_i h1 h2 h3
        cases alloc with
        | none => simp at hacc
        | some buf =>
          refine ⟨buf, rfl, ?_⟩
          simp only [h1, h2, h3, if_false, Bool.false_eq_true]
          cases hw : st.hExecuteThread <;> simp [createThread]

/-- Witness of `WFPExecute_accepted_enqueues`: session 1 submits a device reset
while session 1 holds the lock. -/
theorem WFPExecute_accepted_enqueues_witness :
    (WFPExecute lockedByOne 1 WFS_CMD_ALM_RESET 100 11 (some sampleBuffer)).1 = WFS_SUCCESS ∧
    ∃ buf : WFSRESULT, some sampleBuffer = some buf ∧
      (WFPExecute lockedByOne 1 WFS_CMD_ALM_RESET 100 11 (some sampleBuffer)).2.g_wfs_msg_queue =
        lockedByOne.g_wfs_msg_queue ++
          [{ hWnd := 100,
             lpWFSResult :=
               { buf with RequestID := 11, hService := 1, u := WFS_CMD_ALM_RESET },
             lpDataReceived := NULL, bCancelled := false }] :=
  ⟨by decide,
   (WFPExecute_accepted_enqueues lockedByOne 1 WFS_CMD_ALM_RESET 100 11 (some sampleBuffer)
      (by decide)).imp (fun _ h => ⟨h.1, h.2.1⟩)⟩

/-- C17: whenever `WFPExecute` returns anything but `WFS_SUCCESS` the whole state,
the queue included, is unchanged; for an open session that passes the lock check
each of the command codes `WFS_CMD_ALM_SYNCHRONIZE_COMMAND`,
`WFS_CMD_ALM_SET_ALARM` and `WFS_CMD_ALM_RESET_ALARM` yields
`WFS_ERR_UNSUPP_COMMAND`; and the result is the error of the first check that
fails in the order invalid session, locked by another session, unsupported
command, failed allocation. -/
theorem WFPExecute_rejection_order (st : State) (s : HSERVICE) (dwCommand : DWORD)
    (hWnd : HWND) (reqId : REQUESTID) (alloc : Option WFSRESULT) :
    ((WFPExecute st s dwCommand hWnd reqId alloc).1 ≠ WFS_SUCCESS →
      (WFPExecute st s dwCommand hWnd reqId alloc).2 = st) ∧
    (isOpen st s = true → ¬ (st.g_lock_state = LOCKED ∧ st.g_lock_hservice ≠ s) →
      (dwCommand = WFS_CMD_ALM_SYNCHRONIZE_COMMAND ∨ dwCommand = WFS_CMD_ALM_SET_ALARM ∨
        dwCommand = WFS_CMD_ALM_RESET_ALARM) →
      (WFPExecute st s dwCommand hWnd reqId alloc).1 = WFS_ERR_UNSUPP_COMMAND) ∧
    (WFPExecute st s dwCommand hWnd reqId alloc).1 =
      firstFailing
        [ (!isOpen st s, WFS_ERR_INVALID_HSERVICE),
          (decide (st.g_lock_state = LOCKED ∧ st.g_lock_hservice ≠ s), WFS_ERR_LOCKED),
          (decide (dwCommand = WFS_CMD_ALM_SYNCHRONIZE_COMMAND ∨
            dwCommand = WFS_CMD_ALM_SET_ALARM ∨ dwCommand = WFS_CMD_ALM_RESET_ALARM),
            WFS_ERR_UNSUPP_COMMAND),
          (alloc.isNone, WFS_ERR_INTERNAL_ERROR) ] := by
  have horder : (WFPExecute st s dwCommand hWnd reqId alloc).1 =
      firstFailing
        [ (!isOpen st s, WFS_ERR_INVALID_HSERVICE),
          (decide (st.g_lock_state = LOCKED ∧ st.g_lock_hservice ≠ s), WFS_ERR_LOCKED),
          (decide (dwCommand = WFS_CMD_ALM_SYNCHRONIZE_COMMAND ∨
            dwCommand = WFS_CMD_ALM_SET_ALARM ∨ dwCommand = WFS_CMD_ALM_RESET_ALARM),
            WFS_ERR_UNSUPP_COMMAND),
          (alloc.isNone, WFS_ERR_INTERNAL_ERROR) ] := by
    unfold WFPExecute
    simp only [firstFailing, isOpen, Bool.not_not]
    cases hi : invalidHService st s
    · by_cases hl : st.g_lock_state = LOCKED ∧ st.g_lock_hservice ≠ s
      · have hl2 : (st.g_lock_state == LOCKED && st.g_lock_hservice != s) = true := by
          simp [hl.1, hl.2]
        simp [hl, hl2]
      · have hl2 : (st.g_lock_state == LOCKED && st.g_lock_hservice != s) = false := by
          by_cases ha : st.g_lock_state = LOCKED
          · have hb : st.g_lock_hservice = s := by
              by_contra hne
              exact hl ⟨ha, hne⟩
            simp [ha, hb]
          · simp [ha]
        by_cases hc : dwCommand = WFS_CMD_ALM_SYNCHRONIZE_COMMAND ∨
            dwCommand = WFS_CMD_ALM_SET_ALARM ∨ dwCommand = WFS_CMD_ALM_RESET_ALARM
        · have hc2 : (dwCommand == WFS_CMD_ALM_SYNCHRONIZE_COMMAND ||
              dwCommand == WFS_CMD_ALM_SET_ALARM || dwCommand == WFS_CMD_ALM_RESET_ALARM)
                = true := by
            rcases hc with h | h | h <;> simp [h]
          simp [hl, hl2, hc, hc2]
        · have hc2 : (dwCommand == WFS_CMD_ALM_SYNCHRONIZE_COMMAND ||
              dwCommand == WFS_CMD_ALM_SET_ALARM || dwCommand == WFS_CMD_ALM_RESET_ALARM)
                = false := by
            simp only [not_or] at hc
            simp [hc.1, hc.2.1, hc.2.2]
          cases alloc <;> simp [hl, hl2, hc, hc2]
    · simp
  refine ⟨?_, ?_, horder⟩
  · intro hne
    unfold WFPExecute at hne ⊢
    split
    · rfl
    · split
      · rfl
      · split
        · rfl
        · rename_i h1 h2 h3
          cases alloc with
          | none => rfl
          | some buf => simp [h1, h2, h3] at hne
  · intro hopen hlock hcmd
    rw [horder]
    simp [firstFailing, hopen, hlock, hcmd]

/-! ## `WFPCancelAsyncRequest` (C18) -/

theorem cancelEntry_fields (s : HSERVICE) (reqId : REQUESTID) (msg : WFS_MSG) :
    (cancelEntry s reqId msg).hWnd = msg.hWnd ∧
    (cancelEntry s reqId msg).lpWFSResult = msg.lpWFSResult ∧
    (cancelEntry s reqId msg).lpDataReceived = msg.lpDataReceived ∧
    (cancelEntry s reqId msg).bCancelled =
      (msg.bCancelled || (decide (msg.lpWFSResult.hService = s) &&
        (decide (reqId = NULL) || decide (msg.lpWFSResult.RequestID = reqId)))) := by
  unfold cancelEntry
  by_cases h1 : msg.lpWFSResult.hService = s
  · by_cases h2 : reqId = NULL
    · simp [h1, h2]
    · by_cases h3 : msg.lpWFSResult.RequestID = reqId
      · simp [h1, h2, h3]
      · simp [h1, h2, h3]
  · simp [h1]

theorem cancelEntry_of_no_match (s : HSERVICE) (reqId : REQUESTID) (msg : WFS_MSG)
    (h : ¬ (msg.lpWFSResult.hService = s ∧
      (reqId = NULL ∨ msg.lpWFSResult.RequestID = reqId))) :
    cancelEntry s reqId msg = msg := by
  unfold cancelEntry
  by_cases h1 : msg.lpWFSResult.hService = s
  · have h2 : ¬ (reqId = NULL ∨ msg.lpWFSResult.RequestID = reqId) := fun h2 => h ⟨h1, h2⟩
    simp only [not_or] at h2
    simp [h1, h2.1, h2.2]
  · simp [h1]

/-- C18: for an open session `s`, `WFPCancelAsyncRequest s reqId` returns
`WFS_SUCCESS` and changes nothing but the queue, and in the queue nothing but
`bCancelled` flags: the queue keeps its length and order, every entry keeps its
notify window, result record and data pointer, and the new flag of an entry is
its old flag, or true when the entry belongs to session `s` and `reqId` is
`NULL` or equal to the request id of the entry; when no entry matches, the
state is unchanged. -/
theorem WFPCancelAsyncRequest_marks (st : State) (s : HSERVICE) (reqId : REQUESTID)
    (hopen : isOpen st s = true) :
    (WFPCancelAsyncRequest st s reqId).1 = WFS_SUCCESS ∧
    (WFPCancelAsyncRequest st s reqId).2 =
      { st with g_wfs_msg_queue := (WFPCancelAsyncRequest st s reqId).2.g_wfs_msg_queue } ∧
    (WFPCancelAsyncRequest st s reqId).2.g_wfs_msg_queue.length = st.g_wfs_msg_queue.length ∧
    (WFPCancelAsyncRequest st s reqId).2.g_wfs_msg_queue.map
        (fun m => (m.hWnd, m.lpWFSResult, m.lpDataReceived))
      = st.g_wfs_msg_queue.map (fun m => (m.hWnd, m.lpWFSResult, m.lpDataReceived)) ∧
    (WFPCancelAsyncRequest st s reqId).2.g_wfs_msg_queue.map (fun m => m.bCancelled)
      = st.g_wfs_msg_queue.map (fun m => m.bCancelled ||
          (decide (m.lpWFSResult.hService = s) &&
            (decide (reqId = NULL) || decide (m.lpWFSResult.RequestID = reqId)))) ∧
    ((∀ m ∈ st.g_wfs_msg_queue, ¬ (m.lpWFSResult.hService = s ∧
        (reqId = NULL ∨ m.lpWFSResult.RequestID = reqId))) →
      (WFPCancelAsyncRequest st s reqId).2 = st) := by
  have hinv := invalidHService_of_isOpen hopen
  have hq : (WFPCancelAsyncRequest st s reqId).2.g_wfs_msg_queue
      = st.g_wfs_msg_queue.map (cancelEntry s reqId) := by
    simp [WFPCancelAsyncRequest, hinv]
  refine ⟨by simp [WFPCancelAsyncRequest, hinv], by simp [WFPCancelAsyncRequest, hinv],
    by simp [hq], ?_, ?_, ?_⟩
  · rw [hq, List.map_map]
    apply List.map_congr_left
    intro m _
    obtain ⟨h1, h2, h3, _⟩ := cancelEntry_fields s reqId m
    simp [h1, h2, h3]
  · rw [hq, List.map_map]
    apply List.map_congr_left
    intro m _
    exact (cancelEntry_fields s reqId m).2.2.2
  · intro hno
    have hmap : st.g_wfs_msg_queue.map (cancelEntry s reqId) = st.g_wfs_msg_queue := by
      conv_rhs => rw [← List.map_id st.g_wfs_msg_queue]
      apply List.map_congr_left
      intro m hm
      exact cancelEntry_of_no_match s reqId m (hno m hm)
    simp [WFPCancelAsyncRequest, hinv, hmap]

/-- Witness of `WFPCancelAsyncRequest_marks`: session 1 cancels its request 12
while requests 11, 12 and 13 are queued. -/
theorem WFPCancelAsyncRequest_marks_witness :
    isOpen (runQueueOps twoSessions (threeSubmitsCancelSecond.take 3)) 1 = true ∧
    (WFPCancelAsyncRequest (runQueueOps twoSessions (threeSubmitsCancelSecond.take 3))
      1 12).1 = WFS_SUCCESS ∧
    (WFPCancelAsyncRequest (runQueueOps twoSessions (threeSubmitsCancelSecond.take 3))
      1 12).2.g_wfs_msg_queue.length = 3 :=
  ⟨by decide,
   (WFPCancelAsyncRequest_marks (runQueueOps twoSessions (threeSubmitsCancelSecond.take 3))
      1 12 (by decide)).1,
   (WFPCancelAsyncRequest_marks (runQueueOps twoSessions (threeSubmitsCancelSecond.take 3))
      1 12 (by decide)).2.2.1.trans (by decide)⟩

/-! ## One iteration of the worker (C19) -/

/-- C19: one iteration of the worker on a queue with head `msg` removes exactly
the head, leaves the other entries in order, and appends exactly one message,
`WFS_EXECUTE_COMPLETE` to the notify window of the head, whose record carries
the request id and session of the head; if the head is marked cancelled the
result is `WFS_ERR_CANCELED` and no device function is called; otherwise, for
the command `WFS_CMD_ALM_RESET`, `ResetDevice` is the one device call and the
result is `WFS_SUCCESS` when it returns 0 and `WFS_ERR_INTERNAL_ERROR`
otherwise; on an empty queue the iteration changes nothing, sends nothing and
calls nothing. -/
theorem WFPExecuteThreadIteration_head (st : State) (resetAlarm resetDevice : Int) :
    (∀ (msg : WFS_MSG) (rest : List WFS_MSG), st.g_wfs_msg_queue = msg :: rest →
      ∃ r : WFSRESULT,
        (WFPExecuteThreadIteration st resetAlarm resetDevice).1 =
          { st with g_wfs_msg_queue := rest,
                    sent := st.sent ++ [⟨msg.hWnd, WFS_EXECUTE_COMPLETE, r⟩] } ∧
        r.RequestID = msg.lpWFSResult.RequestID ∧
        r.hService = msg.lpWFSResult.hService ∧
        (msg.bCancelled = true →
          r.hResult = WFS_ERR_CANCELED ∧
          (WFPExecuteThreadIteration st resetAlarm resetDevice).2 = []) ∧
        (msg.bCancelled = false → msg.lpWFSResult.u = WFS_CMD_ALM_RESET →
          (WFPExecuteThreadIteration st resetAlarm resetDevice).2 = [.ResetDevice] ∧
          (resetDevice = 0 → r.hResult = WFS_SUCCESS) ∧
          (resetDevice ≠ 0 → r.hResult = WFS_ERR_INTERNAL_ERROR))) ∧
    (st.g_wfs_msg_queue = [] →
      WFPExecuteThreadIteration st resetAlarm resetDevice = (st, [])) := by
  constructor
  · intro msg rest hq
    refine ⟨(executeMessage msg resetAlarm resetDevice).1, ?_, ?_, ?_, ?_, ?_⟩
    · simp [WFPExecuteThreadIteration, hq, sendMessage]
    · unfold executeMessage WFPExecuteResetAlarmCommand WFPExecuteResetDeviceCommand
      split
      · rfl
      · split
        · split <;> rfl
        · split
          · split <;> rfl
          · rfl
    · unfold executeMessage WFPExecuteResetAlarmCommand WFPExecuteResetDeviceCommand
      split
      · rfl
      · split
        · split <;> rfl
        · split
          · split <;> rfl
          · rfl
    · intro hc
      simp [WFPExecuteThreadIteration, hq, executeMessage, hc]
    · intro hc hu
      have hne : ¬ (WFS_CMD_ALM_RESET = WFS_CMD_ALM_RESET_ALARM) := by decide
      refine ⟨?_, ?_, ?_⟩
      · simp [WFPExecuteThreadIteration, hq, executeMessage, hc, hu, hne]
      · intro h0
        simp [executeMessage, hc, hu, hne, WFPExecuteResetDeviceCommand, h0]
      · intro h0
        simp [executeMessage, hc, hu, hne, WFPExecuteResetDeviceCommand, h0]
  · intro hq
    simp [WFPExecuteThreadIteration, hq]

/-! ## Interleavings on the command queue (C20) -/

theorem WFPExecute_of_success (st : State) (s : HSERVICE) (dwCommand : DWORD) (hWnd : HWND)
    (reqId : REQUESTID) (alloc : Option WFSRESULT)
    (hacc : (WFPExecute st s dwCommand hWnd reqId alloc).1 = WFS_SUCCESS) :
    ∃ buf : WFSRESULT,
      (WFPExecute st s dwCommand hWnd reqId alloc).2.g_wfs_msg_queue =
        st.g_wfs_msg_queue ++
          [{ hWnd := hWnd,
             lpWFSResult := { buf with RequestID := reqId, hService := s, u := dwCommand },
             lpDataReceived := NULL, bCancelled := false }] ∧
      (WFPExecute st s dwCommand hWnd reqId alloc).2.sent = st.sent := by
  unfold WFPExecute at hacc ⊢
  split at hacc
  · simp at hacc
  · split at hacc
    · simp at hacc
    · split at hacc
      · simp at hacc
      · rename_i h1 h2 h3
        cases alloc with
        | none => simp at hacc
        | some buf =>
          refine ⟨buf, ?_⟩
          simp only [h1, h2, h3, if_false, Bool.false_eq_true]
          cases hw : st.hExecuteThread <;> simp [createThread]

theorem WFPExecute_of_failure (st : State) (s : HSERVICE) (dwCommand : DWORD) (hWnd : HWND)
    (reqId : REQUESTID) (alloc : Option WFSRESULT)
    (hrej : (WFPExecute st s dwCommand hWnd reqId alloc).1 ≠ WFS_SUCCESS) :
    (WFPExecute st s dwCommand hWnd reqId alloc).2 = st := by
  unfold WFPExecute at hrej ⊢
  split
  · rfl
  · split
    · rfl
    · split
      · rfl
      · rename_i h1 h2 h3
        cases alloc with
        | none => rfl
        | some buf => simp [h1, h2, h3] at hrej

theorem WFPCancelAsyncRequest_state (st : State) (s : HSERVICE) (reqId : REQUESTID) :
    ((WFPCancelAsyncRequest st s reqId).1 = WFS_SUCCESS ∧
      (WFPCancelAsyncRequest st s reqId).2 =
        { st with g_wfs_msg_queue := st.g_wfs_msg_queue.map (cancelEntry s reqId) }) ∨
    ((WFPCancelAsyncRequest st s reqId).1 ≠ WFS_SUCCESS ∧
      (WFPCancelAsyncRequest st s reqId).2 = st) := by
  unfold WFPCancelAsyncRequest
  cases invalidHService st s <;> simp

theorem requestOfEntry_cancelEntry (s : HSERVICE) (reqId : REQUESTID) (msg : WFS_MSG) :
    requestOfEntry (cancelEntry s reqId msg) = requestOfEntry msg := by
  obtain ⟨h1, h2, _, _⟩ := cancelEntry_fields s reqId msg
  simp [requestOfEntry, h1, h2]

theorem executeMessage_request (msg : WFS_MSG) (resetAlarm resetDevice : Int) :
    (executeMessage msg resetAlarm resetDevice).1.hService = msg.lpWFSResult.hService ∧
    (executeMessage msg resetAlarm resetDevice).1.RequestID = msg.lpWFSResult.RequestID ∧
    (executeMessage msg resetAlarm resetDevice).1.u = msg.lpWFSResult.u := by
  unfold executeMessage WFPExecuteResetAlarmCommand WFPExecuteResetDeviceCommand
  split
  · exact ⟨rfl, rfl, rfl⟩
  · split
    · split <;> exact ⟨rfl, rfl, rfl⟩
    · split
      · split <;> exact ⟨rfl, rfl, rfl⟩
      · exact ⟨rfl, rfl, rfl⟩

theorem executeMessage_canceled_iff (msg : WFS_MSG) (resetAlarm resetDevice : Int)
    (hu : msg.lpWFSResult.u = WFS_CMD_ALM_RESET) :
    decide ((executeMessage msg resetAlarm resetDevice).1.hResult = WFS_ERR_CANCELED)
      = msg.bCancelled := by
  have hne : ¬ (WFS_CMD_ALM_RESET = WFS_CMD_ALM_RESET_ALARM) := by decide
  cases hc : msg.bCancelled
  · by_cases h0 : resetDevice = 0
    · simp [executeMessage, hc, hu, hne, WFPExecuteResetDeviceCommand, h0]
    · simp [executeMessage, hc, hu, hne, WFPExecuteResetDeviceCommand, h0]
  · simp [executeMessage, hc]

theorem executeCompletions_sendMessage (st : State) (hWnd : HWND) (r : WFSRESULT) :
    executeCompletions (sendMessage st hWnd WFS_EXECUTE_COMPLETE r)
      = executeCompletions st ++ [⟨hWnd, WFS_EXECUTE_COMPLETE, r⟩] := by
  simp [executeCompletions, sendMessage, List.filter_append]

theorem WFPExecuteThreadIteration_cons (st : State) (resetAlarm resetDevice : Int)
    (msg : WFS_MSG) (rest : List WFS_MSG) (hq : st.g_wfs_msg_queue = msg :: rest) :
    (WFPExecuteThreadIteration st resetAlarm resetDevice).1 =
      sendMessage { st with g_wfs_msg_queue := rest } msg.hWnd WFS_EXECUTE_COMPLETE
        (executeMessage msg resetAlarm resetDevice).1 := by
  simp [WFPExecuteThreadIteration, hq]

theorem WFPExecuteThreadIteration_nil (st : State) (resetAlarm resetDevice : Int)
    (hq : st.g_wfs_msg_queue = []) :
    (WFPExecuteThreadIteration st resetAlarm resetDevice).1 = st := by
  simp [WFPExecuteThreadIteration, hq]

theorem acceptedRequests_cons (st : State) (op : QueueOp) (ops : List QueueOp) :
    acceptedRequests st (op :: ops)
      = acceptedRequests st [op] ++ acceptedRequests (applyQueueOp st op) ops := by
  cases op with
  | execute s c w r a =>
    by_cases h : (WFPExecute st s c w r a).1 = WFS_SUCCESS <;> simp [acceptedRequests, h]
  | cancel s r => simp [acceptedRequests]
  | work a d => simp [acceptedRequests]

theorem completions_and_queue_step (st : State) (op : QueueOp) :
    (executeCompletions (applyQueueOp st op)).map requestOfMessage
        ++ (applyQueueOp st op).g_wfs_msg_queue.map requestOfEntry
      = (executeCompletions st).map requestOfMessage
        ++ st.g_wfs_msg_queue.map requestOfEntry ++ acceptedRequests st [op] := by
  cases op with
  | execute s c w r a =>
    by_cases h : (WFPExecute st s c w r a).1 = WFS_SUCCESS
    · obtain ⟨buf, hq, hs⟩ := WFPExecute_of_success st s c w r a h
      simp [applyQueueOp, acceptedRequests, h, executeCompletions, hq, hs, requestOfEntry]
    · have hst := WFPExecute_of_failure st s c w r a h
      simp [applyQueueOp, acceptedRequests, h, hst]
  | cancel s r =>
    rcases WFPCancelAsyncRequest_state st s r with ⟨_, hst⟩ | ⟨_, hst⟩
    · simp [applyQueueOp, acceptedRequests, hst, executeCompletions, List.map_map,
        Function.comp_def, requestOfEntry_cancelEntry]
    · simp [applyQueueOp, acceptedRequests, hst]
  | work a d =>
    cases hq : st.g_wfs_msg_queue with
    | nil =>
      simp [applyQueueOp, acceptedRequests, WFPExecuteThreadIteration_nil st a d hq, hq]
    | cons msg rest =>
      obtain ⟨h1, h2, h3⟩ := executeMessage_request msg a d
      simp [applyQueueOp, acceptedRequests, WFPExecuteThreadIteration_cons st a d msg rest hq,
        executeCompletions_sendMessage, requestOfMessage, requestOfEntry, h1, h2, h3]
      simp [executeCompletions, sendMessage]

/-- In every interleaving of `WFPExecute`, `WFPCancelAsyncRequest` and worker
iterations, the requests answered so far followed by the requests still queued
are the requests answered or queued at the start followed by the requests
accepted since, in submission order. -/
theorem completions_and_queue_run (st : State) (ops : List QueueOp) :
    (executeCompletions (runQueueOps st ops)).map requestOfMessage
        ++ (runQueueOps st ops).g_wfs_msg_queue.map requestOfEntry
      = (executeCompletions st).map requestOfMessage
        ++ st.g_wfs_msg_queue.map requestOfEntry ++ acceptedRequests st ops := by
  induction ops generalizing st with
  | nil => simp [runQueueOps, acceptedRequests]
  | cons op ops ih =>
    rw [runQueueOps, ih, completions_and_queue_step, acceptedRequests_cons st op ops]
    simp [List.append_assoc]

/-- Exactly once, in submission order: when the queue is empty at the start and
has been drained at the end, the `WFS_EXECUTE_COMPLETE` messages answer the
earlier requests followed by each accepted request once, in submission order. -/
theorem drained_completions_eq_accepted (st : State) (ops : List QueueOp)
    (hstart : st.g_wfs_msg_queue = []) (hdrained : (runQueueOps st ops).g_wfs_msg_queue = []) :
    (executeCompletions (runQueueOps st ops)).map requestOfMessage
      = (executeCompletions st).map requestOfMessage ++ acceptedRequests st ops := by
  have h := completions_and_queue_run st ops
  simpa [hstart, hdrained] using h

theorem onlyReset_step (st : State) (op : QueueOp)
    (hinv : ∀ m ∈ st.g_wfs_msg_queue, m.lpWFSResult.u = WFS_CMD_ALM_RESET)
    (hop : submitsOnlyReset op = true) :
    ∀ m ∈ (applyQueueOp st op).g_wfs_msg_queue, m.lpWFSResult.u = WFS_CMD_ALM_RESET := by
  cases op with
  | execute s c w r a =>
    have hc : c = WFS_CMD_ALM_RESET := by simpa [submitsOnlyReset] using hop
    by_cases h : (WFPExecute st s c w r a).1 = WFS_SUCCESS
    · obtain ⟨buf, hq, _⟩ := WFPExecute_of_success st s c w r a h
      intro m hm
      simp only [applyQueueOp, hq, List.mem_append, List.mem_singleton] at hm
      rcases hm with hm | hm
      · exact hinv m hm
      · simp [hm, hc]
    · simpa [applyQueueOp, WFPExecute_of_failure st s c w r a h] using hinv
  | cancel s r =>
    rcases WFPCancelAsyncRequest_state st s r with ⟨_, hst⟩ | ⟨_, hst⟩
    · intro m hm
      simp only [applyQueueOp, hst, List.mem_map] at hm
      obtain ⟨m0, hm0, rfl⟩ := hm
      rw [(cancelEntry_fields s r m0).2.1]
      exact hinv m0 hm0
    · simpa [applyQueueOp, hst] using hinv
  | work a d =>
    cases hq : st.g_wfs_msg_queue with
    | nil => simpa [applyQueueOp, WFPExecuteThreadIteration_nil st a d hq] using hinv
    | cons msg rest =>
      intro m hm
      simp only [applyQueueOp, WFPExecuteThreadIteration_cons st a d msg rest hq,
        sendMessage] at hm
      exact hinv m (by rw [hq]; exact List.mem_cons_of_mem _ hm)

theorem specPair_cancelEntry (s : HSERVICE) (r : REQUESTID) (m : WFS_MSG) :
    (requestOfEntry (cancelEntry s r m), (cancelEntry s r m).bCancelled)
      = (requestOfEntry m, (m.bCancelled || cancelMatches s r (requestOfEntry m))) := by
  obtain ⟨h1, h2, _, h4⟩ := cancelEntry_fields s r m
  rw [requestOfEntry_cancelEntry, h4]
  simp only [requestOfEntry, cancelMatches]
  by_cases e1 : m.lpWFSResult.hService = s <;> by_cases e2 : r = NULL <;>
    by_cases e3 : m.lpWFSResult.RequestID = r <;> simp [e1, e2, e3]

theorem specQueueOf_step (st : State) (op : QueueOp)
    (hinv : ∀ m ∈ st.g_wfs_msg_queue, m.lpWFSResult.u = WFS_CMD_ALM_RESET) :
    specQueueOf (applyQueueOp st op) = specQueueStep (specQueueOf st) st op := by
  cases op with
  | execute s c w r a =>
    by_cases h : (WFPExecute st s c w r a).1 = WFS_SUCCESS
    · obtain ⟨buf, hq, hs⟩ := WFPExecute_of_success st s c w r a h
      simp [applyQueueOp, specQueueStep, h, specQueueOf, executeCompletions, hq, hs,
        requestOfEntry]
    · simp [applyQueueOp, specQueueStep, h, WFPExecute_of_failure st s c w r a h]
  | cancel s r =>
    rcases WFPCancelAsyncRequest_state st s r with ⟨hok, hst⟩ | ⟨hno, hst⟩
    · simp only [applyQueueOp, specQueueStep, hok, if_true, hst, specQueueOf,
        executeCompletions, List.map_map, Function.comp_def, specPair_cancelEntry]
    · simp [applyQueueOp, specQueueStep, hno, hst]
  | work a d =>
    cases hq : st.g_wfs_msg_queue with
    | nil =>
      simp [applyQueueOp, specQueueStep, WFPExecuteThreadIteration_nil st a d hq,
        specQueueOf, hq]
    | cons msg rest =>
      have hu : msg.lpWFSResult.u = WFS_CMD_ALM_RESET := hinv msg (by simp [hq])
      obtain ⟨h1, h2, h3⟩ := executeMessage_request msg a d
      have h4 := executeMessage_canceled_iff msg a d hu
      simp only [applyQueueOp, specQueueStep, WFPExecuteThreadIteration_cons st a d msg rest hq,
        specQueueOf, executeCompletions_sendMessage, hq, List.map_cons, List.map_append,
        List.map_nil, requestOfMessage, requestOfEntry, h1, h2, h3, h4]
      simp [executeCompletions, sendMessage]

/-- With only `WFS_CMD_ALM_RESET` queued or submitted, the code runs in step with
the specification queue: the completions sent carry `WFS_ERR_CANCELED` exactly
for the requests marked "cancelled while queued". -/
theorem specQueueOf_run (st : State) (ops : List QueueOp)
    (hinv : ∀ m ∈ st.g_wfs_msg_queue, m.lpWFSResult.u = WFS_CMD_ALM_RESET)
    (hops : ∀ op ∈ ops, submitsOnlyReset op = true) :
    specQueueOf (runQueueOps st ops) = specQueueRun (specQueueOf st) st ops := by
  induction ops generalizing st with
  | nil => simp [runQueueOps, specQueueRun]
  | cons op ops ih =>
    have hop : submitsOnlyReset op = true := hops op (List.mem_cons_self _ _)
    rw [runQueueOps, specQueueRun, ← specQueueOf_step st op hinv]
    exact ih (applyQueueOp st op) (onlyReset_step st op hinv hop)
      (fun o ho => hops o (List.mem_cons_of_mem _ ho))

/-- The scenario of C20 on requests the worker has a handler for: three
`WFS_CMD_ALM_RESET` submissions 11, 12, 13 of session 1 with no lock held, a
cancellation of 12 alone, and three worker iterations leave the queue empty and
yield the completions 11 (`WFS_SUCCESS`), 12 (`WFS_ERR_CANCELED`) and 13
(`WFS_SUCCESS`), in that order, all to window 100. -/
theorem three_submits_cancel_second_completions :
    (runQueueOps twoSessions threeSubmitsCancelSecond).g_wfs_msg_queue = [] ∧
    (executeCompletions (runQueueOps twoSessions threeSubmitsCancelSecond)).map
        (fun m => (m.hWnd, m.lParam.RequestID, m.lParam.hResult))
      = [(100, 11, WFS_SUCCESS), (100, 12, WFS_ERR_CANCELED), (100, 13, WFS_SUCCESS)] := by
  decide

/-- C20 fails on the code for a command the worker has no handler for.  Session
1 submits command code 705, which `WFPExecute` accepts; the result record comes
from `WFMAllocateBuffer` without `WFS_MEM_ZEROINIT` and its `hResult` field,
which `WFPExecute` never writes, holds the bit pattern of `WFS_ERR_CANCELED`.
Nothing is cancelled (the specification queue answers the request unmarked), the
worker takes neither the cancellation branch nor a handler branch, and the one
completion carries `WFS_ERR_CANCELED`. -/
theorem unhandled_command_completion_is_stale :
    isOpen twoSessions 1 = true ∧
    acceptedRequests twoSessions submitUnhandledCommand = [⟨100, 1, 11, 705⟩] ∧
    (runQueueOps twoSessions submitUnhandledCommand).g_wfs_msg_queue = [] ∧
    (specQueueRun (specQueueOf twoSessions) twoSessions submitUnhandledCommand).completed
      = [(⟨100, 1, 11, 705⟩, false)] ∧
    (executeCompletions (runQueueOps twoSessions submitUnhandledCommand)).map
        (fun m => (requestOfMessage m, m.lParam.hResult))
      = [(⟨100, 1, 11, 705⟩, WFS_ERR_CANCELED)] := by
  decide

/-! ## The lock scenario (C21) -/

/-- C21: in a state with sessions `A` and `B` open and the device `UNLOCKED`
(such as the initial state after both were opened), `WFPLock A` is accepted and
creates its thread; after that thread has run, `WFPLock B` returns
`WFS_ERR_LOCKED`; `WFPUnlock A` is then accepted and creates its thread; after
that thread has run, `WFPLock B` returns `WFS_SUCCESS` (its allocation
succeeding). -/
theorem lock_unlock_scenario (st : State) (A B : HSERVICE) (t1 t2 t3 : DWORD) (hWnd : HWND)
    (q1 q2 q3 q4 : REQUESTID) (b1 b3 b4 : WFSRESULT) (alloc2 : Option WFSRESULT)
    (hA : isOpen st A = true) (hB : isOpen st B = true)
    (hunlocked : st.g_lock_state = UNLOCKED) :
    ((WFPLock st A t1 hWnd q1 (some b1)).1 = WFS_SUCCESS ∧
      (WFPLock st A t1 hWnd q1 (some b1)).2.threads
        = st.threads ++ [.WFPLockProcess (acceptedRecord b1 A hWnd q1)]) ∧
    (WFPLock (lockCompleted st A t1 hWnd q1 b1) B t2 hWnd q2 alloc2).1 = WFS_ERR_LOCKED ∧
    ((WFPUnlock (lockCompleted st A t1 hWnd q1 b1) A hWnd q3 (some b3)).1 = WFS_SUCCESS ∧
      (WFPUnlock (lockCompleted st A t1 hWnd q1 b1) A hWnd q3 (some b3)).2.threads
        = (lockCompleted st A t1 hWnd q1 b1).threads
            ++ [.WFPUnLockProcess (acceptedRecord b3 A hWnd q3)]) ∧
    (WFPLock (unlockCompleted (lockCompleted st A t1 hWnd q1 b1) A hWnd q3 b3) B t3 hWnd q4
      (some b4)).1 = WFS_SUCCESS := by
  have hiA := invalidHService_of_isOpen hA
  have hiB := invalidHService_of_isOpen hB
  have hlock : WFPLock st A t1 hWnd q1 (some b1)
      = (WFS_SUCCESS, createThread { st with g_lock_state := LOCK_PENDING }
          (.WFPLockProcess (acceptedRecord b1 A hWnd q1))) := by
    simp [WFPLock, hiA, hunlocked, acceptedRecord]
  have hs2 : (lockCompleted st A t1 hWnd q1 b1).g_h_services = st.g_h_services := by
    simp [lockCompleted, hlock, WFPLockProcess, sendMessage, createThread]
  have hl2 : (lockCompleted st A t1 hWnd q1 b1).g_lock_state = LOCKED := by
    simp [lockCompleted, WFPLockProcess, sendMessage]
  have hiA2 : invalidHService (lockCompleted st A t1 hWnd q1 b1) A = false := by
    simpa [invalidHService, hs2] using hiA
  have hiB2 : invalidHService (lockCompleted st A t1 hWnd q1 b1) B = false := by
    simpa [invalidHService, hs2] using hiB
  have hunlock : WFPUnlock (lockCompleted st A t1 hWnd q1 b1) A hWnd q3 (some b3)
      = (WFS_SUCCESS, createThread (lockCompleted st A t1 hWnd q1 b1)
          (.WFPUnLockProcess (acceptedRecord b3 A hWnd q3))) := by
    simp [WFPUnlock, hiA2, hl2, acceptedRecord]
  have hs4 : (unlockCompleted (lockCompleted st A t1 hWnd q1 b1) A hWnd q3 b3).g_h_services
      = st.g_h_services := by
    simp [unlockCompleted, hunlock, WFPUnLockProcess, sendMessage, createThread, hs2]
  have hl4 : (unlockCompleted (lockCompleted st A t1 hWnd q1 b1) A hWnd q3 b3).g_lock_state
      = UNLOCKED := by
    simp [unlockCompleted, WFPUnLockProcess, sendMessage]
  have hiB4 : invalidHService
      (unlockCompleted (lockCompleted st A t1 hWnd q1 b1) A hWnd q3 b3) B = false := by
    simpa [invalidHService, hs4] using hiB
  refine ⟨⟨by rw [hlock], by rw [hlock]; simp [createThread]⟩, ?_,
    ⟨by rw [hunlock], by rw [hunlock]; simp [createThread]⟩, ?_⟩
  · simp [WFPLock, hiB2, hl2]
  · simp [WFPLock, hiB4, hl4]

/-- Witness of `lock_unlock_scenario`: sessions 1 and 2, opened from the initial
state. -/
theorem lock_unlock_scenario_witness :
    isOpen openedTwoSessions 1 = true ∧ isOpen openedTwoSessions 2 = true ∧
    openedTwoSessions.g_lock_state = UNLOCKED ∧
    (WFPLock (lockCompleted openedTwoSessions 1 0 100 7 sampleBuffer) 2 0 100 8
      (some sampleBuffer)).1 = WFS_ERR_LOCKED ∧
    (WFPLock (unlockCompleted (lockCompleted openedTwoSessions 1 0 100 7 sampleBuffer)
      1 100 9 sampleBuffer) 2 0 100 10 (some sampleBuffer)).1 = WFS_SUCCESS :=
  ⟨by decide, by decide, by decide,
   (lock_unlock_scenario openedTwoSessions 1 2 0 0 0 100 7 8 9 10 sampleBuffer sampleBuffer
      sampleBuffer (some sampleBuffer) (by decide) (by decide) (by decide)).2.1,
   (lock_unlock_scenario openedTwoSessions 1 2 0 0 0 100 7 8 9 10 sampleBuffer sampleBuffer
      sampleBuffer (some sampleBuffer) (by decide) (by decide) (by decide)).2.2.2⟩

/-! ## Allocation failures (C23, C24) -/

/-- C23 fails on the code: session 1 is open, the device is `UNLOCKED`, and the
allocation inside `WFPLock` fails.  The call returns `WFS_ERR_INTERNAL_ERROR`,
but the lock state has already been set and stays `LOCK_PENDING`; no thread is
created that would complete or undo it, and a later `WFPLock` of the open
session 2, or of session 1 again, returns `WFS_ERR_LOCKED`. -/
theorem WFPLock_alloc_failure_leaves_pending :
    isOpen openedTwoSessions 1 = true ∧ isOpen openedTwoSessions 2 = true ∧
    openedTwoSessions.g_lock_state = UNLOCKED ∧
    (WFPLock openedTwoSessions 1 0 100 7 none).1 = WFS_ERR_INTERNAL_ERROR ∧
    (WFPLock openedTwoSessions 1 0 100 7 none).2.g_lock_state = LOCK_PENDING ∧
    (WFPLock openedTwoSessions 1 0 100 7 none).2.threads = openedTwoSessions.threads ∧
    (WFPLock (WFPLock openedTwoSessions 1 0 100 7 none).2 2 0 100 8 (some sampleBuffer)).1
      = WFS_ERR_LOCKED ∧
    (WFPLock (WFPLock openedTwoSessions 1 0 100 7 none).2 1 0 100 9 (some sampleBuffer)).1
      = WFS_ERR_LOCKED := by
  decide

/-- C24 fails on the code when the descriptor allocation fails.  `WFPGetInfo` of
session 1 is accepted for `WFS_INF_ALM_STATUS` and for
`WFS_INF_ALM_CAPABILITIES` and creates the thread `WFPGetInfoProcess`; when
`WFMAllocateMore` fails in that thread, `ProcessGetInfoStatus` /
`ProcessGetInfoCapabilities` set `WFS_ERR_INTERNAL_ERROR`, the thread then
overwrites it, and the `WFS_GETINFO_COMPLETE` message carries `WFS_SUCCESS` with
no descriptor. -/
theorem WFPGetInfoProcess_overwrites_alloc_error :
    WFPGetInfo openedTwoSessions 1 WFS_INF_ALM_STATUS 100 7 (some sampleBuffer)
      = (WFS_SUCCESS,
          createThread openedTwoSessions (.WFPGetInfoProcess (getInfoRecord WFS_INF_ALM_STATUS))) ∧
    (ProcessGetInfoStatus (getInfoRecord WFS_INF_ALM_STATUS) none).hResult
      = WFS_ERR_INTERNAL_ERROR ∧
    (WFPGetInfoProcess openedTwoSessions (getInfoRecord WFS_INF_ALM_STATUS) none).sent
      = openedTwoSessions.sent ++
          [⟨100, WFS_GETINFO_COMPLETE,
            { getInfoRecord WFS_INF_ALM_STATUS with hResult := WFS_SUCCESS }⟩] ∧
    WFPGetInfo openedTwoSessions 1 WFS_INF_ALM_CAPABILITIES 100 7 (some sampleBuffer)
      = (WFS_SUCCESS,
          createThread openedTwoSessions
            (.WFPGetInfoProcess (getInfoRecord WFS_INF_ALM_CAPABILITIES))) ∧
    (ProcessGetInfoCapabilities (getInfoRecord WFS_INF_ALM_CAPABILITIES) none).hResult
      = WFS_ERR_INTERNAL_ERROR ∧
    (WFPGetInfoProcess openedTwoSessions (getInfoRecord WFS_INF_ALM_CAPABILITIES) none).sent
      = openedTwoSessions.sent ++
          [⟨100, WFS_GETINFO_COMPLETE,
            { getInfoRecord WFS_INF_ALM_CAPABILITIES with hResult := WFS_SUCCESS }⟩] := by
  decide

/-- The part of C24 that holds: when the descriptor allocation succeeds (block at
address `addr`), the record sent for a status query carries `WFS_SUCCESS` and
the filled status descriptor, and the record sent for a capabilities query
carries `WFS_SUCCESS` and the filled capabilities descriptor. -/
theorem getInfoResult_of_alloc_success (lpParam : WFSRESULT) (addr : Nat) :
    (lpParam.u = WFS_INF_ALM_STATUS →
      getInfoResult lpParam (some addr) =
        { lpParam with
            hResult := WFS_SUCCESS
            lpBuffer := .almStatus addr ⟨WFS_ALM_DEVONLINE, false, WFS_ALM_AFMOK, NULL⟩ }) ∧
    (lpParam.u = WFS_INF_ALM_CAPABILITIES →
      getInfoResult lpParam (some addr) =
        { lpParam with
            hResult := WFS_SUCCESS
            lpBuffer := .almCaps addr ⟨WFS_SERVICE_CLASS_ALM, true, NULL, true, NULL⟩ }) := by
  have hne : ¬ (WFS_INF_ALM_STATUS = WFS_INF_ALM_CAPABILITIES) := by decide
  constructor
  · intro h
    simp [getInfoResult, h, hne, ProcessGetInfoStatus]
  · intro h
    simp [getInfoResult, h, ProcessGetInfoCapabilities]

/-! ## The frame of `WFPClose` (C25) -/

/-- C25: for an open session `s`, whatever the lock state and owner, and with a
successful allocation, `WFPClose s` changes exactly this: the lock state becomes
`UNLOCKED`, the owner `NULL`, `s` is erased from the session registry (every
other key keeps its entry), and the thread `WFPCloseProcess` is created; the
subscription table, the command queue and the messages sent are unchanged. -/
theorem WFPClose_frame (st : State) (s : HSERVICE) (hWnd : HWND) (reqId : REQUESTID)
    (buf : WFSRESULT) (hopen : isOpen st s = true) :
    WFPClose st s hWnd reqId (some buf) =
      (WFS_SUCCESS,
        { st with
            g_lock_state := UNLOCKED
            g_lock_hservice := NULL
            g_h_services := mapErase st.g_h_services s
            threads := st.threads ++ [.WFPCloseProcess (acceptedRecord buf s hWnd reqId)] }) ∧
    mapFind (mapErase st.g_h_services s) s = none ∧
    (∀ t : HSERVICE, t ≠ s → mapFind (mapErase st.g_h_services s) t = mapFind st.g_h_services t) ∧
    (WFPClose st s hWnd reqId (some buf)).2.g_lock_state = UNLOCKED ∧
    (WFPClose st s hWnd reqId (some buf)).2.g_lock_hservice = NULL ∧
    (WFPClose st s hWnd reqId (some buf)).2.g_wfs_event = st.g_wfs_event ∧
    (WFPClose st s hWnd reqId (some buf)).2.g_wfs_msg_queue = st.g_wfs_msg_queue := by
  have hinv := invalidHService_of_isOpen hopen
  have hclose : WFPClose st s hWnd reqId (some buf) =
      (WFS_SUCCESS,
        { st with
            g_lock_state := UNLOCKED
            g_lock_hservice := NULL
            g_h_services := mapErase st.g_h_services s
            threads := st.threads ++ [.WFPCloseProcess (acceptedRecord buf s hWnd reqId)] }) := by
    simp [WFPClose, hinv, createThread, acceptedRecord]
  refine ⟨hclose, mapFind_mapErase_self _ _, fun t ht => mapFind_mapErase_of_ne _ ht, ?_, ?_,
    ?_, ?_⟩ <;> rw [hclose]

/-- Witness of `WFPClose_frame`: session 2 closes while session 1 holds the lock. -/
theorem WFPClose_frame_witness :
    isOpen lockedByOne 2 = true ∧ lockedByOne.g_lock_state = LOCKED ∧
    lockedByOne.g_lock_hservice = 1 ∧
    (WFPClose lockedByOne 2 100 9 (some sampleBuffer)).2.g_lock_state = UNLOCKED ∧
    (WFPClose lockedByOne 2 100 9 (some sampleBuffer)).2.g_lock_hservice = NULL :=
  ⟨by decide, by decide, by decide,
   (WFPClose_frame lockedByOne 2 100 9 sampleBuffer (by decide)).2.2.2.1,
   (WFPClose_frame lockedByOne 2 100 9 sampleBuffer (by decide)).2.2.2.2.1⟩

/-! ## Invariants of the reachable states (C22, C26, C27) -/

theorem sendEventLoop_only_sends (evt data : Int) (alloc : HWND → Option WFSRESULT)
    (allocMore : HWND → Option Nat) (events : List (HWND × WFS_EVENTS)) (st : State)
    (res : HRESULT × State)
    (h : sendEventLoop evt data alloc allocMore events st = some res) :
    ∃ msgs : List Message, res.2 = { st with sent := st.sent ++ msgs } := by
  induction events generalizing st with
  | nil =>
    simp only [sendEventLoop, Option.some.injEq] at h
    exact ⟨[], by simp [← h]⟩
  | cons p rest ih =>
    obtain ⟨w, e⟩ := p
    simp only [sendEventLoop] at h
    by_cases hc : anyEventClass e.dwEvent = true
    · simp only [hc, if_true] at h
      cases ha : alloc w with
      | none =>
        simp only [ha, Option.some.injEq] at h
        exact ⟨[], by simp [← h]⟩
      | some buf =>
        cases hm : allocMore w with
        | none => simp [ha, hm] at h
        | some more =>
          simp only [ha, hm] at h
          obtain ⟨msgs, hmsgs⟩ := ih _ h
          exact ⟨⟨w, WFS_USER_EVENT, eventRecord buf more e.hService evt data⟩ :: msgs,
            by simp [hmsgs, sendMessage]⟩
    · simp only [hc] at h
      exact ih _ h

theorem runThread_lock_frame (st : State) (env : ThreadEnv) (t : Thread)
    (hnot : ∀ r, t ≠ .WFPLockProcess r) (hnot2 : ∀ r, t ≠ .WFPUnLockProcess r) :
    (runThread st env t).g_lock_state = st.g_lock_state ∧
    (runThread st env t).g_lock_hservice = st.g_lock_hservice ∧
    (runThread st env t).threads = st.threads := by
  cases t with
  | WFPLockProcess r => exact absurd rfl (hnot r)
  | WFPUnLockProcess r => exact absurd rfl (hnot2 r)
  | WFPExecuteThread =>
    simp only [runThread, WFPExecuteThreadIteration]
    cases st.g_wfs_msg_queue <;> simp [sendMessage]
  | _ => simp [runThread, WFPOpenProcess, WFPCloseProcess, WFPRegisterProcess,
      WFPDeRegisterProcess, WFPGetInfoProcess, sendMessage]

theorem LockInvariant_of_frame {st st2 : State} (h : LockInvariant st)
    (h1 : st2.g_lock_state = st.g_lock_state) (h2 : st2.g_lock_hservice = st.g_lock_hservice)
    (h3 : ∀ r : WFSRESULT, Thread.WFPLockProcess r ∈ st2.threads →
      Thread.WFPLockProcess r ∈ st.threads) : LockInvariant st2 := by
  refine ⟨by rw [h1, h2]; exact h.1, fun r hr => h.2 r (h3 r hr)⟩

theorem LockInvariant_applyOp (st : State) (op : Op) (h : LockInvariant st) :
    LockInvariant (applyOp st op) := by
  cases op with
  | wfpOpen s w iw q hp spi lspi srv lsrv alloc =>
    apply LockInvariant_of_frame h <;> simp only [applyOp, WFPOpen] <;>
      split <;> (try split) <;> (try split) <;> simp [createThread]
  | wfpClose s w q alloc =>
    obtain ⟨h1, h2⟩ := h
    simp only [applyOp, WFPClose]
    cases hi : invalidHService st s
    · cases alloc <;> refine ⟨by simp [createThread], fun r hr => h2 r ?_⟩ <;>
        simpa [createThread] using hr
    · exact ⟨h1, h2⟩
  | wfpLock s t w q alloc =>
    obtain ⟨h1, h2⟩ := h
    simp only [applyOp, WFPLock]
    cases hi : invalidHService st s
    · cases hl : st.g_lock_state
      · have hs : s ≠ NULL := by
          intro h0
          simp [invalidHService, h0] at hi
        have ho : st.g_lock_hservice = NULL := by
          by_contra hne
          have := h1.1 hne
          rw [hl] at this
          exact absurd this (by decide)
        cases alloc with
        | none => exact ⟨by simp [ho], fun r hr => h2 r (by simpa using hr)⟩
        | some buf =>
          refine ⟨by simp [createThread, ho], fun r hr => ?_⟩
          simp only [createThread, Bool.false_eq_true, if_false, List.mem_append,
            List.mem_singleton] at hr
          simp at hr
          rcases hr with hr | hr
          · exact h2 r hr
          · rw [hr]; exact hs
      · show LockInvariant st
        exact ⟨h1, h2⟩
      · show LockInvariant st
        exact ⟨h1, h2⟩
    · exact ⟨h1, h2⟩
  | wfpUnlock s w q alloc =>
    apply LockInvariant_of_frame h <;> simp only [applyOp, WFPUnlock] <;>
      split <;> (try split) <;> (try split) <;> simp [createThread]
  | wfpRegister s c wr w q alloc =>
    apply LockInvariant_of_frame h <;> simp only [applyOp, WFPRegister] <;>
      split <;> (try split) <;> (try split) <;> simp [createThread]
  | wfpDeregister s c wr w q alloc =>
    apply LockInvariant_of_frame h <;> simp only [applyOp, WFPDeregister] <;>
      split <;> (try split) <;> simp [createThread]
  | wfpGetInfo s c w q alloc =>
    apply LockInvariant_of_frame h <;> simp only [applyOp, WFPGetInfo] <;>
      split <;> (try split) <;> simp [createThread]
  | wfpExecute s c w q alloc =>
    apply LockInvariant_of_frame h <;> simp only [applyOp, WFPExecute] <;>
      split <;> (try split) <;> (try split) <;> (try split) <;> (try split) <;>
      simp [createThread]
  | wfpCancelAsyncRequest s q =>
    apply LockInvariant_of_frame h <;> simp only [applyOp, WFPCancelAsyncRequest] <;>
      split <;> simp
  | wfpSendEvent evt data alloc allocMore =>
    simp only [applyOp]
    cases hres : WFPSendEvent st evt data alloc allocMore with
    | none => exact h
    | some res =>
      obtain ⟨msgs, hm⟩ := sendEventLoop_only_sends evt data alloc allocMore _ st res hres
      apply LockInvariant_of_frame h <;> simp [hm]
  | thread i env =>
    simp only [applyOp]
    cases hget : st.threads.get? i with
    | none => exact h
    | some t =>
      have hmem : t ∈ st.threads := List.get?_mem hget
      cases t with
      | WFPLockProcess r =>
        refine ⟨?_, fun r2 hr2 => h.2 r2 ?_⟩
        · have hr := h.2 r hmem
          simp [runThread, WFPLockProcess, sendMessage, hr]
        · have : Thread.WFPLockProcess r2 ∈ st.threads.eraseIdx i := by
            simpa [runThread, WFPLockProcess, sendMessage] using hr2
          exact List.mem_of_mem_eraseIdx this
      | WFPUnLockProcess r =>
        refine ⟨by simp [runThread, WFPUnLockProcess, sendMessage], fun r2 hr2 => h.2 r2 ?_⟩
        have : Thread.WFPLockProcess r2 ∈ st.threads.eraseIdx i := by
          simpa [runThread, WFPUnLockProcess, sendMessage] using hr2
        exact List.mem_of_mem_eraseIdx this
      | WFPExecuteThread =>
        obtain ⟨f1, f2, f3⟩ := runThread_lock_frame st env .WFPExecuteThread
          (fun r => by simp) (fun r => by simp)
        exact LockInvariant_of_frame h f1 f2 (fun r hr => by rw [f3] at hr; exact hr)
      | WFPOpenProcess r =>
        obtain ⟨f1, f2, f3⟩ := runThread_lock_frame
          { st with threads := st.threads.eraseIdx i } env (.WFPOpenProcess r)
          (fun r => by simp) (fun r => by simp)
        exact LockInvariant_of_frame h f1 f2
          (fun r hr => by rw [f3] at hr; exact List.mem_of_mem_eraseIdx hr)
      | WFPCloseProcess r =>
        obtain ⟨f1, f2, f3⟩ := runThread_lock_frame
          { st with threads := st.threads.eraseIdx i } env (.WFPCloseProcess r)
          (fun r => by simp) (fun r => by simp)
        exact LockInvariant_of_frame h f1 f2
          (fun r hr => by rw [f3] at hr; exact List.mem_of_mem_eraseIdx hr)
      | WFPRegisterProcess r =>
        obtain ⟨f1, f2, f3⟩ := runThread_lock_frame
          { st with threads := st.threads.eraseIdx i } env (.WFPRegisterProcess r)
          (fun r => by simp) (fun r => by simp)
        exact LockInvariant_of_frame h f1 f2
          (fun r hr => by rw [f3] at hr; exact List.mem_of_mem_eraseIdx hr)
      | WFPDeRegisterProcess r =>
        obtain ⟨f1, f2, f3⟩ := runThread_lock_frame
          { st with threads := st.threads.eraseIdx i } env (.WFPDeRegisterProcess r)
          (fun r => by simp) (fun r => by simp)
        exact LockInvariant_of_frame h f1 f2
          (fun r hr => by rw [f3] at hr; exact List.mem_of_mem_eraseIdx hr)
      | WFPGetInfoProcess r =>
        obtain ⟨f1, f2, f3⟩ := runThread_lock_frame
          { st with threads := st.threads.eraseIdx i } env (.WFPGetInfoProcess r)
          (fun r => by simp) (fun r => by simp)
        exact LockInvariant_of_frame h f1 f2
          (fun r hr => by rw [f3] at hr; exact List.mem_of_mem_eraseIdx hr)

theorem LockInvariant_runOps (st : State) (ops : List Op) (h : LockInvariant st) :
    LockInvariant (runOps st ops) := by
  induction ops generalizing st with
  | nil => exact h
  | cons op ops ih => exact ih _ (LockInvariant_applyOp st op h)

theorem LockInvariant_initState : LockInvariant initState := by
  refine ⟨by decide, fun r hr => ?_⟩
  simp [initState] at hr

theorem WFPExecute_success_command (st : State) (s : HSERVICE) (dwCommand : DWORD) (hWnd : HWND)
    (reqId : REQUESTID) (alloc : Option WFSRESULT)
    (hacc : (WFPExecute st s dwCommand hWnd reqId alloc).1 = WFS_SUCCESS) :
    ¬ (st.g_lock_state = LOCKED ∧ st.g_lock_hservice ≠ s) ∧
    dwCommand ≠ WFS_CMD_ALM_RESET_ALARM ∧ dwCommand ≠ WFS_CMD_ALM_SET_ALARM ∧
      dwCommand ≠ WFS_CMD_ALM_SYNCHRONIZE_COMMAND := by
  unfold WFPExecute at hacc
  split at hacc
  · simp at hacc
  · split at hacc
    · simp at hacc
    · split at hacc
      · simp at hacc
      · rename_i h1 h2 h3
        simp only [Bool.or_eq_true, beq_iff_eq, not_or] at h3
        simp only [Bool.and_eq_true, beq_iff_eq, bne_iff_ne, ne_eq] at h2
        exact ⟨h2, h3.2, h3.1.2, h3.1.1⟩

theorem QueueInvariant_of_queue_eq {st st2 : State} (h : QueueInvariant st)
    (hq : st2.g_wfs_msg_queue = st.g_wfs_msg_queue) : QueueInvariant st2 := by
  intro m hm
  rw [hq] at hm
  exact h m hm

theorem runThread_queue_frame (st : State) (env : ThreadEnv) (t : Thread)
    (hnot : t ≠ .WFPExecuteThread) :
    (runThread st env t).g_wfs_msg_queue = st.g_wfs_msg_queue := by
  cases t with
  | WFPExecuteThread => exact absurd rfl hnot
  | _ => simp [runThread, WFPOpenProcess, WFPCloseProcess, WFPLockProcess, WFPUnLockProcess,
      WFPRegisterProcess, WFPDeRegisterProcess, WFPGetInfoProcess, sendMessage]

theorem QueueInvariant_applyOp (st : State) (op : Op) (h : QueueInvariant st) :
    QueueInvariant (applyOp st op) := by
  cases op with
  | wfpOpen s w iw q hp spi lspi srv lsrv alloc =>
    apply QueueInvariant_of_queue_eq h; simp only [applyOp, WFPOpen]
    split <;> (try split) <;> (try split) <;> simp [createThread]
  | wfpClose s w q alloc =>
    apply QueueInvariant_of_queue_eq h; simp only [applyOp, WFPClose]
    split <;> (try split) <;> simp [createThread]
  | wfpLock s t w q alloc =>
    apply QueueInvariant_of_queue_eq h; simp only [applyOp, WFPLock]
    split <;> (try split) <;> (try split) <;> simp [createThread]
  | wfpUnlock s w q alloc =>
    apply QueueInvariant_of_queue_eq h; simp only [applyOp, WFPUnlock]
    split <;> (try split) <;> (try split) <;> simp [createThread]
  | wfpRegister s c wr w q alloc =>
    apply QueueInvariant_of_queue_eq h; simp only [applyOp, WFPRegister]
    split <;> (try split) <;> (try split) <;> simp [createThread]
  | wfpDeregister s c wr w q alloc =>
    apply QueueInvariant_of_queue_eq h; simp only [applyOp, WFPDeregister]
    split <;> (try split) <;> simp [createThread]
  | wfpGetInfo s c w q alloc =>
    apply QueueInvariant_of_queue_eq h; simp only [applyOp, WFPGetInfo]
    split <;> (try split) <;> simp [createThread]
  | wfpExecute s c w q alloc =>
    simp only [applyOp]
    by_cases hacc : (WFPExecute st s c w q alloc).1 = WFS_SUCCESS
    · obtain ⟨buf, hq, _⟩ := WFPExecute_of_success st s c w q alloc hacc
      obtain ⟨_, hc⟩ := WFPExecute_success_command st s c w q alloc hacc
      intro m hm
      rw [hq] at hm
      simp only [List.mem_append, List.mem_singleton] at hm
      rcases hm with hm | hm
      · exact h m hm
      · rw [hm]; exact hc
    · rw [WFPExecute_of_failure st s c w q alloc hacc]; exact h
  | wfpCancelAsyncRequest s q =>
    simp only [applyOp]
    rcases WFPCancelAsyncRequest_state st s q with ⟨_, hst⟩ | ⟨_, hst⟩
    · intro m hm
      rw [hst] at hm
      simp only [List.mem_map] at hm
      obtain ⟨m0, hm0, rfl⟩ := hm
      rw [(cancelEntry_fields s q m0).2.1]
      exact h m0 hm0
    · rw [hst]; exact h
  | wfpSendEvent evt data alloc allocMore =>
    simp only [applyOp]
    cases hres : WFPSendEvent st evt data alloc allocMore with
    | none => exact h
    | some res =>
      obtain ⟨msgs, hm⟩ := sendEventLoop_only_sends evt data alloc allocMore _ st res hres
      apply QueueInvariant_of_queue_eq h; simp [hm]
  | thread i env =>
    simp only [applyOp]
    cases hget : st.threads.get? i with
    | none => exact h
    | some t =>
      cases t with
      | WFPExecuteThread =>
        simp only [runThread]
        cases hq : st.g_wfs_msg_queue with
        | nil => rw [WFPExecuteThreadIteration_nil st _ _ hq]; exact h
        | cons msg rest =>
          rw [WFPExecuteThreadIteration_cons st _ _ msg rest hq]
          intro m hm
          exact h m (by rw [hq]; exact List.mem_cons_of_mem _ (by simpa [sendMessage] using hm))
      | WFPOpenProcess r =>
        exact QueueInvariant_of_queue_eq h (runThread_queue_frame _ env _ (by simp))
      | WFPCloseProcess r =>
        exact QueueInvariant_of_queue_eq h (runThread_queue_frame _ env _ (by simp))
      | WFPLockProcess r =>
        exact QueueInvariant_of_queue_eq h (runThread_queue_frame _ env _ (by simp))
      | WFPUnLockProcess r =>
        exact QueueInvariant_of_queue_eq h (runThread_queue_frame _ env _ (by simp))
      | WFPRegisterProcess r =>
        exact QueueInvariant_of_queue_eq h (runThread_queue_frame _ env _ (by simp))
      | WFPDeRegisterProcess r =>
        exact QueueInvariant_of_queue_eq h (runThread_queue_frame _ env _ (by simp))
      | WFPGetInfoProcess r =>
        exact QueueInvariant_of_queue_eq h (runThread_queue_frame _ env _ (by simp))

theorem QueueInvariant_runOps (st : State) (ops : List Op) (h : QueueInvariant st) :
    QueueInvariant (runOps st ops) := by
  induction ops generalizing st with
  | nil => exact h
  | cons op ops ih => exact ih _ (QueueInvariant_applyOp st op h)

theorem QueueInvariant_initState : QueueInvariant initState := by
  intro m hm
  simp [initState] at hm

theorem no_ResetAlarm_of_QueueInvariant (st : State) (resetAlarm resetDevice : Int)
    (h : QueueInvariant st) :
    DeviceCall.ResetAlarm ∉ (WFPExecuteThreadIteration st resetAlarm resetDevice).2 := by
  unfold WFPExecuteThreadIteration
  cases hq : st.g_wfs_msg_queue with
  | nil => simp
  | cons msg rest =>
    have hu := (h msg (by simp [hq])).1
    simp only [executeMessage]
    cases hc : msg.bCancelled
    · have hne : ¬ (WFS_CMD_ALM_RESET = WFS_CMD_ALM_RESET_ALARM) := by decide
      by_cases hr : msg.lpWFSResult.u = WFS_CMD_ALM_RESET
      · simp [hr, hne]
      · simp [hu, hr]
    · simp

/-- C22, as stated, fails: from the initial state sessions 1 and 2 are opened,
session 2 submits `WFS_CMD_ALM_RESET` while the device is unlocked (accepted and
queued, the worker thread is created), session 1 calls `WFPLock` and its lock
thread runs.  The lock is now `LOCKED` with owner 1, the head of the queue is
the command of session 2, not cancelled, and the next iteration of the worker
calls `ResetDevice` for it. -/
theorem worker_executes_while_locked_by_other :
    (WFPExecute openedTwoSessions 2 WFS_CMD_ALM_RESET 100 11 (some sampleBuffer)).1
      = WFS_SUCCESS ∧
    (runOps openedTwoSessions submitThenLockedByOther).g_lock_state = LOCKED ∧
    (runOps openedTwoSessions submitThenLockedByOther).g_lock_hservice = 1 ∧
    (runOps openedTwoSessions submitThenLockedByOther).g_wfs_msg_queue.map
        (fun m => (m.lpWFSResult.hService, m.lpWFSResult.u, m.bCancelled))
      = [(2, WFS_CMD_ALM_RESET, false)] ∧
    (runOps openedTwoSessions submitThenLockedByOther).threads.get? 2
      = some .WFPExecuteThread ∧
    (WFPExecuteThreadIteration (runOps openedTwoSessions submitThenLockedByOther)
      ResetAlarm ResetDevice).2 = [.ResetDevice] := by
  decide

/-- C22, amended: the lock is consulted when a command is submitted, not when it
is executed.  `WFPExecute` accepts a command of session `s` only if, at the time
of the call, the lock state is not `LOCKED` with an owner other than `s`; the
device calls of a worker iteration do not depend on the lock state or the
owner. -/
theorem lock_checked_at_submission_only (st : State) (s : HSERVICE) (dwCommand : DWORD)
    (hWnd : HWND) (reqId : REQUESTID) (alloc : Option WFSRESULT) (lockState : LockState)
    (owner : HSERVICE) (resetAlarm resetDevice : Int) :
    ((WFPExecute st s dwCommand hWnd reqId alloc).1 = WFS_SUCCESS →
      ¬ (st.g_lock_state = LOCKED ∧ st.g_lock_hservice ≠ s)) ∧
    (WFPExecuteThreadIteration
        { st with g_lock_state := lockState, g_lock_hservice := owner }
        resetAlarm resetDevice).2
      = (WFPExecuteThreadIteration st resetAlarm resetDevice).2 := by
  refine ⟨fun hacc => (WFPExecute_success_command st s dwCommand hWnd reqId alloc hacc).1, ?_⟩
  unfold WFPExecuteThreadIteration
  cases st.g_wfs_msg_queue <;> simp

/-- Were every entry point and every thread body to run as one indivisible
step, which is what the waits on `g_lock_mutex` are there for, the recorded lock
owner would be non-`NULL` exactly when the lock state is `LOCKED` in every state
reached from the initial state.  The source does not run them so: see
`lock_sections_interleave_without_mutex`. -/
theorem owner_iff_locked_for_indivisible_steps (ops : List Op) :
    (runOps initState ops).g_lock_hservice ≠ NULL ↔
      (runOps initState ops).g_lock_state = LOCKED :=
  (LockInvariant_runOps initState ops LockInvariant_initState).1

theorem WFPLockProcess_eq_section (st : State) (lpParam : WFSRESULT) :
    WFPLockProcess st lpParam
      = WFPLockProcess_rest (execLockStatements st (WFPLockProcess_section lpParam)) lpParam := by
  simp [WFPLockProcess, WFPLockProcess_rest, WFPLockProcess_section, execLockStatements,
    execLockStatement, sendMessage]

theorem WFPClose_eq_section (st : State) (hService : HSERVICE) (hWnd : HWND)
    (reqId : REQUESTID) (alloc : Option WFSRESULT) (hopen : isOpen st hService = true) :
    WFPClose st hService hWnd reqId alloc
      = WFPClose_rest (execLockStatements st WFPClose_section) hService hWnd reqId alloc := by
  have hinv := invalidHService_of_isOpen hopen
  cases alloc <;>
    simp [WFPClose, WFPClose_rest, WFPClose_section, execLockStatements, execLockStatement,
      hinv]

/-- C26 fails on the code.  Whatever handles `CreateMutex` returns, `DllMain`
stores them in the variables of `dllmain.cpp`, and `g_lock_mutex` of
`xfssp.cpp` stays `NULL`, so the critical sections on the lock exclude nobody.
From the initial state sessions 1 and 2 are opened and `WFPLock` of session 1
is accepted, which creates its lock thread.  The lock thread executes
`g_lock_state = LOCKED`, then `WFPClose` of the open session 2 executes
`g_lock_state = UNLOCKED` and `g_lock_hservice = NULL`, then the lock thread
executes `g_lock_hservice = 1`.  This order is one of the schedules of the two
sections, and when both bodies have run to their end the lock state is
`UNLOCKED` while the recorded owner is 1, not `NULL`. -/
theorem lock_sections_interleave_without_mutex (lockMutex queueMutex : Nat) :
    (DllMain initialHandles lockMutex queueMutex).xfssp_g_lock_mutex = NULL ∧
    (WFPLock openedTwoSessions 1 0 100 7 (some sampleBuffer)).1 = WFS_SUCCESS ∧
    lockOfOneAccepted.threads.get? 2
      = some (.WFPLockProcess (acceptedRecord sampleBuffer 1 100 7)) ∧
    isOpen lockOfOneAccepted 2 = true ∧
    lockThreadSplitByClose ∈
      sectionSchedules (DllMain initialHandles lockMutex queueMutex).xfssp_g_lock_mutex
        (WFPLockProcess_section (acceptedRecord sampleBuffer 1 100 7)) WFPClose_section ∧
    (execLockStatements lockOfOneAccepted lockThreadSplitByClose).g_lock_state = UNLOCKED ∧
    (execLockStatements lockOfOneAccepted lockThreadSplitByClose).g_lock_hservice = 1 ∧
    closedDuringLockThread.g_lock_state = UNLOCKED ∧
    closedDuringLockThread.g_lock_hservice = 1 ∧
    ¬ (closedDuringLockThread.g_lock_hservice ≠ NULL ↔
        closedDuringLockThread.g_lock_state = LOCKED) := by
  refine ⟨rfl, by decide, by decide, by decide, ?_, by decide, by decide, by decide,
    by decide, by decide⟩
  have hnull : (DllMain initialHandles lockMutex queueMutex).xfssp_g_lock_mutex = NULL := rfl
  rw [hnull]
  decide

/-- C27: in every state reached from the initial state by any sequence of entry
point calls, device events and thread steps, no queue entry has the command code
`WFS_CMD_ALM_RESET_ALARM`, `WFS_CMD_ALM_SET_ALARM` or
`WFS_CMD_ALM_SYNCHRONIZE_COMMAND`, and an iteration of the worker in such a
state never calls `ResetAlarm`: the branch `WFPExecuteResetAlarmCommand` is not
taken. -/
theorem reachable_queue_has_no_rejected_command (ops : List Op) :
    (∀ m ∈ (runOps initState ops).g_wfs_msg_queue,
      m.lpWFSResult.u ≠ WFS_CMD_ALM_RESET_ALARM ∧ m.lpWFSResult.u ≠ WFS_CMD_ALM_SET_ALARM ∧
        m.lpWFSResult.u ≠ WFS_CMD_ALM_SYNCHRONIZE_COMMAND) ∧
    (∀ resetAlarm resetDevice : Int,
      DeviceCall.ResetAlarm ∉
        (WFPExecuteThreadIteration (runOps initState ops) resetAlarm resetDevice).2) :=
  ⟨QueueInvariant_runOps initState ops QueueInvariant_initState,
   fun resetAlarm resetDevice =>
    no_ResetAlarm_of_QueueInvariant _ resetAlarm resetDevice
      (QueueInvariant_runOps initState ops QueueInvariant_initState)⟩

end XfsSp
